import Mathlib

/-!
Verification development for the AtlasBuilding chatbot routing core.

This file gives a shallow embedding, in Lean 4, of the routing and SQL-safety
core of the repository (src/router.py, src/db.py, src/agent.py, src/chatbot.py)
and proves or refutes the frozen specification claims about it.

Conventions of the embedding:
* Python strings are Lean `String`s; all text manipulation is done on the
  underlying `List Char`.
* `str.lower()` is modelled character-wise with `Char.toLower` (the inputs
  of interest are ASCII; Python's extra Unicode case folding does not affect
  any theorem below).
* Python's `\s` (whitespace) is modelled by the ASCII whitespace characters.
* The external SQL parser (sqlglot's `parse_one`) is modelled as an oracle
  `parse : String → Bool`; `parse s = false` corresponds to `ParseError`.
* Exceptions are modelled with `Except String`; a raised `ValueError`/`KeyError`
  is an `Except.error`.
-/

/-! ## Basic character and string helpers -/

/-- ASCII whitespace, matching Python's `str.strip` / regex `\s` on ASCII text. -/
def isWsC (c : Char) : Bool :=
  c = ' ' || c = '\t' || c = '\n' || c = '\r' || c = '\x0b' || c = '\x0c'

/-- Word character for Python's regex `\b` boundary (ASCII model of `\w`). -/
def isWordC (c : Char) : Bool :=
  c.isAlphanum || c = '_'

/-- `str.lower()` on a character list. -/
def lowerL (xs : List Char) : List Char := xs.map Char.toLower

/-- `str.lower()`. -/
def pyLower (s : String) : String := String.mk (lowerL s.data)

/-- `str.strip()` on a character list (remove leading and trailing whitespace). -/
def stripL (xs : List Char) : List Char :=
  ((xs.dropWhile isWsC).reverse.dropWhile isWsC).reverse

/-- `str.strip()`. -/
def stripS (s : String) : String := String.mk (stripL s.data)

/-- `f" {s} "` — pad with one space on each side. -/
def padS (s : String) : String := " " ++ s ++ " "

/-- Does `n` occur as a contiguous segment of `h`?  (Python's `n in h`.) -/
def occursIn (n : List Char) : List Char → Bool
  | [] => n.isEmpty
  | c :: t => n.isPrefixOf (c :: t) || occursIn n t

/-- Python's substring test `n in h` on strings. -/
def occursS (n h : String) : Bool := occursIn n.data h.data

/-- Python's `h.startswith n`. -/
def startsWithS (n h : String) : Bool := n.data.isPrefixOf h.data

/-- The apostrophe character `'` (U+0027), used when assembling SQL text. -/
def apos : String := String.singleton (Char.ofNat 39)

/-! ## The SQL Safety Gate, router version

Embedding of `_ensure_safe_select` (src/router.py lines 23–39).  `MAX_ROWS`
is the default value 500 of the `MAX_ROWS` environment variable. -/

def MAX_ROWS : Nat := 500

/-- `_BANNED` of src/router.py line 23 (a Python set; order is irrelevant,
    only membership is used). -/
def BANNED_router : List String :=
  ["insert", "update", "delete", "alter", "drop", "create", "attach", "copy", "pragma"]

/-- `";" in sql` (src/router.py line 27). -/
def hasSemicolon (sql : String) : Bool := occursS ";" sql

/-- `sql.lower().strip()` — the `low` local of `_ensure_safe_select`. -/
def routerLow (sql : String) : String := stripS (pyLower sql)

/-- `low.startswith("select") or low.startswith("with")` (line 29). -/
def startsSelectOrWith (low : String) : Bool :=
  startsWithS "select" low || startsWithS "with" low

/-- `any(f" {kw} " in f" {low} " for kw in _BANNED)` (line 31). -/
def bannedCheckR (sql : String) : Bool :=
  BANNED_router.any (fun kw => occursS (padS kw) (padS (routerLow sql)))

/-- `" limit " not in f" {low} "` is false, i.e. the padded lowered text
    contains the token `" limit "` (line 37). -/
def hasLimitTok (sql : String) : Bool := occursS " limit " (padS (routerLow sql))

/-- `f"SELECT * FROM ({sql}) AS _t LIMIT {MAX_ROWS}"` (line 38). -/
def wrap_t (sql : String) : String := "SELECT * FROM (" ++ sql ++ ") AS _t LIMIT 500"

/-- `_ensure_safe_select` (src/router.py lines 25–39).  `parse` is the sqlglot
    `parse_one` oracle: `parse sql = false` means `ParseError` was raised. -/
def ensure_safe_select (parse : String → Bool) (sql : String) : Except String String :=
  if hasSemicolon sql then .error "Multiple statements not allowed."
  else if !(startsSelectOrWith (routerLow sql)) then .error "Only SELECT (or WITH ... SELECT) allowed."
  else if bannedCheckR sql then .error "Unsafe keyword detected."
  else if !(parse sql) then .error "SQL parse error"
  else if !(hasLimitTok sql) then .ok (wrap_t sql)
  else .ok sql

/-! ## The SQL Safety Gate, db-client version

Embedding of `DuckDBClient.ensure_safe_select` (src/db.py lines 118–134);
`MAX_ROWS = 500` (db.py line 15) and sqlglot is taken as importable
(`HAS_SQLGLOT = True`), modelled by the same parse oracle. -/

/-- `_BANNED` of src/db.py lines 16–17 (keywords already padded with spaces). -/
def BANNED_db : List String :=
  [" insert ", " update ", " delete ", " drop ", " alter ", " create table ",
   " attach ", " copy ", " pragma ", " call ", " replace into "]

/-- `f" {sql.lower().strip()} "` — the `low` local of the db gate (line 120). -/
def dbLow (sql : String) : String := padS (stripS (pyLower sql))

/-- `any(kw in low for kw in _BANNED)` (db.py line 125). -/
def bannedCheckD (sql : String) : Bool :=
  BANNED_db.any (fun kw => occursS kw (dbLow sql))

/-- `f"SELECT * FROM ({sql}) AS _safe LIMIT {MAX_ROWS}"` (db.py line 133). -/
def wrap_safe (sql : String) : String := "SELECT * FROM (" ++ sql ++ ") AS _safe LIMIT 500"

/-- `DuckDBClient.ensure_safe_select` (src/db.py lines 118–134). -/
def ensure_safe_select_db (parse : String → Bool) (sql : String) : Except String String :=
  if hasSemicolon sql then .error "Multiple statements not allowed."
  else if !(startsSelectOrWith (stripS (dbLow sql))) then .error "Only SELECT/WITH allowed."
  else if bannedCheckD sql then .error "Unsafe keyword detected."
  else if !(parse sql) then .error "SQL parse error"
  else if !(occursS " limit " (dbLow sql)) then .ok (wrap_safe sql)
  else .ok sql

/-! ## Number parsing and decimal rendering helpers -/

/-- Value of a nonempty digit string, as Python's `int` (leading zeros allowed). -/
def digitsToNat (ds : List Char) : Nat :=
  ds.foldl (fun acc c => acc * 10 + (c.toNat - 48)) 0

/-- Python `int` of a regex group matching `[+-]?\d+` / `-?\d+`. -/
def charsToInt (g : List Char) : Int :=
  match g with
  | '-' :: ds => -(digitsToNat ds : Int)
  | '+' :: ds => (digitsToNat ds : Int)
  | ds => (digitsToNat ds : Int)

/-- Decimal digits of `n`, most significant first (accumulator form).  The
    recursion is on a structural fuel (any fuel above the digit count gives
    the same value; `natRepr` passes `n + 1`), so that the function reduces
    definitionally in the kernel. -/
def natReprAux (fuel : Nat) (n : Nat) (acc : List Char) : List Char :=
  match fuel with
  | 0 => acc
  | fuel + 1 =>
    let d := Char.ofNat (48 + n % 10)
    if n < 10 then d :: acc
    else natReprAux fuel (n / 10) (d :: acc)

/-- Python `str` of a nonnegative integer. -/
def natRepr (n : Nat) : String := String.mk (natReprAux (n + 1) n [])

/-- Python `str` of an integer. -/
def intRepr (i : Int) : String :=
  if i < 0 then "-" ++ natRepr i.natAbs else natRepr i.toNat

/-! ## Regex-fragment models

Each function below models one concrete regular expression used by
src/router.py, with Python `re.search` semantics (leftmost match wins,
alternatives tried in written order, greedy quantifiers). -/

/-- `\s*([+-]?\d+)` at the current position: skip whitespace, then an optional
    sign and at least one digit; returns the text of the capture group. -/
def matchNumAfter (cs : List Char) : Option (List Char) :=
  let cs' := cs.dropWhile isWsC
  match cs' with
  | [] => none
  | c :: rest =>
    if c = '+' || c = '-' then
      let ds := rest.takeWhile Char.isDigit
      if ds.isEmpty then none else some (c :: ds)
    else
      let ds := (c :: rest).takeWhile Char.isDigit
      if ds.isEmpty then none else some ds

/-- Try `(?:kw₁|kw₂|…)\s*([+-]?\d+)` at the current position, alternatives in
    list order (Python's ordered alternation with backtracking). -/
def tryKwNumAt (kws : List String) (cs : List Char) : Option (List Char) :=
  kws.findSome? (fun kw =>
    if kw.data.isPrefixOf cs then matchNumAfter (cs.drop kw.length) else none)

/-- `re.search` for `(?:kw₁|…)\s*([+-]?\d+)`: scan positions left to right. -/
def kwNumSearch (kws : List String) : List Char → Option (List Char)
  | [] => none
  | c :: t =>
    match tryKwNumAt kws (c :: t) with
    | some g => some g
    | none => kwNumSearch kws t

/-- `[+-]?\d+` at the start of `cs`; returns (group, rest-after-group). -/
def signNum (cs : List Char) : Option (List Char × List Char) :=
  match cs with
  | [] => none
  | c :: rest =>
    if c = '+' || c = '-' then
      let ds := rest.takeWhile Char.isDigit
      if ds.isEmpty then none else some (c :: ds, rest.drop ds.length)
    else
      let ds := (c :: rest).takeWhile Char.isDigit
      if ds.isEmpty then none else some (ds, (c :: rest).drop ds.length)

/-- `\d{1,2}` (greedy) followed by `\b`, at the start of `cs`. -/
def digits12 : List Char → Option (List Char)
  | [] => none
  | [a] => if a.isDigit then some [a] else none
  | a :: b :: rest =>
    if a.isDigit && b.isDigit && (match rest with | [] => true | x :: _ => !isWordC x) then
      some [a, b]
    else if a.isDigit && !isWordC b then some [a]
    else none

/-- `\b([+-]?\d{1,2})\b` at the current position (`prev` is the preceding
    character, if any, for the `\b` test). -/
def loneNumAt (prev : Option Char) (cs : List Char) : Option (List Char) :=
  match cs with
  | [] => none
  | c :: rest =>
    if c = '+' || c = '-' then
      -- the sign is a non-word character, so `\b` before it needs a word char before
      if (match prev with | some p => isWordC p | none => false) then
        match digits12 rest with
        | some ds => some (c :: ds)
        | none => none
      else none
    else if (match prev with | some p => !isWordC p | none => true) then
      digits12 (c :: rest)
    else none

/-- `re.search` for `\b([+-]?\d{1,2})\b`. -/
def loneNumSearch : Option Char → List Char → Option (List Char)
  | _, [] => none
  | prev, c :: t =>
    match loneNumAt prev (c :: t) with
    | some g => some g
    | none => loneNumSearch (some c) t

/-- `\b(\d)\.(?:\d{2,3})\b` at the current position; returns the leading digit. -/
def roomCodeAt (prev : Option Char) (cs : List Char) : Option Nat :=
  match cs with
  | d :: dot :: rest =>
    if d.isDigit && dot = '.' && (match prev with | some p => !isWordC p | none => true) then
      match rest with
      | a :: b :: c :: rest3 =>
        if a.isDigit && b.isDigit && c.isDigit &&
           (match rest3 with | [] => true | x :: _ => !isWordC x) then
          some (d.toNat - 48)
        else if a.isDigit && b.isDigit && !isWordC c then
          some (d.toNat - 48)
        else none
      | [a, b] => if a.isDigit && b.isDigit then some (d.toNat - 48) else none
      | _ => none
    else none
  | _ => none

/-- `re.search` for `\b(\d)\.(?:\d{2,3})\b` (room codes like `3.142`). -/
def roomCodeSearch : Option Char → List Char → Option Nat
  | _, [] => none
  | prev, c :: t =>
    match roomCodeAt prev (c :: t) with
    | some n => some n
    | none => roomCodeSearch (some c) t

/-- `\bkw\b` at the current position.  All keywords used with this function
    begin and end with word characters, so `\b` amounts to: the previous
    character (if any) and the following character (if any) are non-word. -/
def wholeWordAt (kw : List Char) (prev : Option Char) (cs : List Char) : Bool :=
  kw.isPrefixOf cs &&
  (match prev with | some p => !isWordC p | none => true) &&
  (match cs.drop kw.length with | [] => true | x :: _ => !isWordC x)

/-- `re.search` for `\bkw\b` (as a boolean). -/
def wholeWordSearch (kw : List Char) : Option Char → List Char → Bool
  | prev, [] => wholeWordAt kw prev []
  | prev, c :: t => wholeWordAt kw prev (c :: t) || wholeWordSearch kw (some c) t

/-! ## Text normalization (src/router.py lines 92–97)

`unicodedata.normalize("NFKD", …)` is modelled as the identity: every string
manipulated in this development is already NFKD-normal (ASCII plus precomposed-
free Arabic letters).  Removal of combining marks is modelled by filtering the
standard combining-mark code-point blocks. -/

/-- `unicodedata.combining(c) != 0`, modelled over the common combining blocks. -/
def isCombining (c : Char) : Bool :=
  (0x300 ≤ c.toNat && c.toNat ≤ 0x36F) || (0x483 ≤ c.toNat && c.toNat ≤ 0x489) ||
  (0x591 ≤ c.toNat && c.toNat ≤ 0x5BD) ||
  (0x64B ≤ c.toNat && c.toNat ≤ 0x65F) || c.toNat = 0x670 ||
  (0x6D6 ≤ c.toNat && c.toNat ≤ 0x6DC) ||
  (0x1AB0 ≤ c.toNat && c.toNat ≤ 0x1AFF) || (0x1DC0 ≤ c.toNat && c.toNat ≤ 0x1DFF) ||
  (0x20D0 ≤ c.toNat && c.toNat ≤ 0x20FF) || (0xFE20 ≤ c.toNat && c.toNat ≤ 0xFE2F)

/-- Helper of `collapseWsL`: the flag records whether the previous character
    was whitespace (i.e. a run is in progress whose space was already
    emitted). -/
def collapseWsAux : Bool → List Char → List Char
  | _, [] => []
  | inRun, c :: t =>
    if isWsC c then
      if inRun then collapseWsAux true t else ' ' :: collapseWsAux true t
    else c :: collapseWsAux false t

/-- `re.sub(r"\s+", " ", ·)`: replace each maximal whitespace run by one space. -/
def collapseWsL (xs : List Char) : List Char := collapseWsAux false xs

/-- `_normalize_text` (src/router.py lines 92–97): lowercase, strip combining
    marks, collapse whitespace runs, strip. -/
def normalize_text (q : String) : String :=
  let ql := lowerL q.data
  let ql := ql.filter (fun c => !isCombining c)
  String.mk (stripL (collapseWsL ql))

/-! ## Lexicons (src/router.py lines 100–125) -/

/-- `_LIST_VERBS` (Python set; only membership-in-haystack is used). -/
def LIST_VERBS : List String :=
  ["list", "show", "which", "what", "what are", "give me", "display", "enumerate", "all",
   "toon", "laat zien", "welke", "wat zijn", "geef me", "alle",
   "اعرض", "ما هي", "ماهي", "ايش", "كم", "عرض", "عدد", "الكل"]

/-- `_FLOOR_WORDS`. -/
def FLOOR_WORDS : List String :=
  ["floor", "floors", "level", "levels", "storey", "storeys", "story", "stories",
   "verdieping", "verdiepingen", "etage", "etages", "niveau", "niveaus",
   "طابق", "طوابق", "دور", "ادوار", "أدوار", "دوران"]

/-- `_ROOM_WORDS`. -/
def ROOM_WORDS : List String :=
  ["room", "rooms", "ruimte", "ruimtes", "kamer", "kamers", "غرفة", "غرف"]

/-- `_contains_any` (src/router.py lines 127–128): substring containment. -/
def contains_any (haystack : String) (kws : List String) : Bool :=
  kws.any (fun kw => occursS kw haystack)

/-! ## Intent predicates (src/router.py lines 130–164) -/

/-- The literal short asks of `_intent_list_floors` (line 138). -/
def shortFloorAsks : List String :=
  ["floors", "list floors", "levels", "show floors", "welke verdiepingen",
   "toon verdiepingen", "كم طابق", "عدد الطوابق"]

/-- `_intent_list_floors` (src/router.py lines 130–144). -/
def intent_list_floors (q : String) : Bool :=
  let qn := normalize_text q
  shortFloorAsks.contains qn ||
  (contains_any qn LIST_VERBS && contains_any qn FLOOR_WORDS)

/-- The flattened alternation `floor|level|storey|verdiep(?:ing)?|etage|الدور|طابق|دور`
    of `_intent_rooms_on_floor` (line 154); the greedy optional `(?:ing)?` makes
    `verdieping` come before `verdiep`. -/
def roomFloorKws : List String :=
  ["floor", "level", "storey", "verdieping", "verdiep", "etage", "الدور", "طابق", "دور"]

/-- `_intent_rooms_on_floor` (src/router.py lines 146–164).  The source tests
    `m and room`, then `m2 and room`; since the room-word test is the same in
    both arms this equals: if no room word, no match, otherwise first the
    keyword+number regex and then the room-code regex. -/
def intent_rooms_on_floor (q : String) : Option Int :=
  let qn := normalize_text q
  if contains_any qn ROOM_WORDS then
    match kwNumSearch roomFloorKws qn.data with
    | some g => some (charsToInt g)
    | none =>
      match roomCodeSearch none qn.data with
      | some n => some ((n : Int))
      | none => none
  else none

/-! ## Auxiliary extractors (src/router.py lines 41–72) -/

/-- `_parse_int` (lines 41–43): `re.search(r"(-?\d+)", text)`. -/
def intAt (cs : List Char) : Option Int :=
  match cs with
  | [] => none
  | c :: rest =>
    if c = '-' then
      let ds := rest.takeWhile Char.isDigit
      if ds.isEmpty then none else some (-(digitsToNat ds : Int))
    else
      let ds := (c :: rest).takeWhile Char.isDigit
      if ds.isEmpty then none else some ((digitsToNat ds : Int))

/-- scan for `(-?\d+)`. -/
def intSearch : List Char → Option Int
  | [] => none
  | c :: t =>
    match intAt (c :: t) with
    | some i => some i
    | none => intSearch t

/-- `_parse_int`. -/
def parse_int (text : String) : Option Int := intSearch text.data

/-- `_parse_floor` (lines 45–51): explicit `(?:floor|level|storey|verdiep(?:ing)?)\s*([+-]?\d+)`
    (the callers pass already-lowercased text, so the `re.I` flag is inert),
    then the fallback `\b([+-]?\d{1,2})\b`. -/
def parse_floor (text : String) : Option String :=
  match kwNumSearch ["floor", "level", "storey", "verdieping", "verdiep"] text.data with
  | some g => some (String.mk g)
  | none =>
    match loneNumSearch none text.data with
    | some g => some (String.mk g)
    | none => none

/-- Time units of `_parse_days_hours`. -/
inductive TimeUnit where
  | day
  | week
  | month
deriving Repr, DecidableEq

/-- `(last|past)\s+(\d+)\s*(day|days|week|weeks|month|months)` at the current
    position.  Only the first letters of the unit decide the outcome, so the
    ordered alternation reduces to a prefix test for `day`/`week`/`month`. -/
def lastNUnitAt (cs : List Char) : Option (Nat × TimeUnit) :=
  let go (rest : List Char) : Option (Nat × TimeUnit) :=
    if (rest.takeWhile isWsC).isEmpty then none
    else
      let rest2 := rest.dropWhile isWsC
      let ds := rest2.takeWhile Char.isDigit
      if ds.isEmpty then none
      else
        let rest3 := (rest2.drop ds.length).dropWhile isWsC
        if ("day".data).isPrefixOf rest3 then some (digitsToNat ds, .day)
        else if ("week".data).isPrefixOf rest3 then some (digitsToNat ds, .week)
        else if ("month".data).isPrefixOf rest3 then some (digitsToNat ds, .month)
        else none
  if ("last".data).isPrefixOf cs then go (cs.drop 4)
  else if ("past".data).isPrefixOf cs then go (cs.drop 4)
  else none

/-- scan for the `last/past N unit` pattern. -/
def lastNUnitSearch : List Char → Option (Nat × TimeUnit)
  | [] => none
  | c :: t =>
    match lastNUnitAt (c :: t) with
    | some r => some r
    | none => lastNUnitSearch t

/-- `\b(now|right now|currently|this moment)\b` as a boolean (the alternative
    actually matched does not matter to the caller). -/
def nowCheck (ql : String) : Bool :=
  ["now", "right now", "currently", "this moment"].any
    (fun k => wholeWordSearch k.data none ql.data)

/-- `_parse_days_hours` (src/router.py lines 53–68): returns (days?, hours?). -/
def parse_days_hours (q : String) : Option Nat × Option Nat :=
  let ql := pyLower q
  if nowCheck ql then (none, some 1)
  else
    match lastNUnitSearch ql.data with
    | some (n, u) =>
      (some (match u with | .week => n * 7 | .month => n * 30 | .day => n), none)
    | none =>
      if occursS "last week" ql || occursS "past week" ql then (some 7, none)
      else if occursS "last month" ql || occursS "past month" ql then (some 30, none)
      else (none, none)

/-- `(?:<|below|under)\s*(\d+)\s*%?` at the current position (the three
    alternatives start with distinct characters, so ordered choice is a plain
    if-chain; the trailing `\s*%?` cannot fail). -/
def thrAt (cs : List Char) : Option Nat :=
  let tryAfter (rest : List Char) : Option Nat :=
    let rest2 := rest.dropWhile isWsC
    let ds := rest2.takeWhile Char.isDigit
    if ds.isEmpty then none else some (digitsToNat ds)
  if ("<".data).isPrefixOf cs then tryAfter (cs.drop 1)
  else if ("below".data).isPrefixOf cs then tryAfter (cs.drop 5)
  else if ("under".data).isPrefixOf cs then tryAfter (cs.drop 5)
  else none

/-- scan for the threshold pattern. -/
def thrSearch : List Char → Option Nat
  | [] => none
  | c :: t =>
    match thrAt (c :: t) with
    | some n => some n
    | none => thrSearch t

/-- `_parse_threshold_percent` (src/router.py lines 70–72). -/
def parse_threshold_percent (q : String) : Option ℚ :=
  (thrSearch q.data).map (fun n => mkRat n 100)

/-- Python's `x or default` on an optional number (`0` is falsy). -/
def orDefaultNat (o : Option Nat) (dflt : Nat) : Nat :=
  match o with
  | some n => if n = 0 then dflt else n
  | none => dflt

/-- Python's `x or default` on an optional rational (`0.0` is falsy). -/
def orDefaultRat (o : Option ℚ) (dflt : ℚ) : ℚ :=
  match o with
  | some r => if r = 0 then dflt else r
  | none => dflt

/-- Python's `x or default` on an optional integer (`0` is falsy). -/
def orDefaultInt (o : Option Int) (dflt : Int) : Int :=
  match o with
  | some i => if i = 0 then dflt else i
  | none => dflt

/-! ## Decision container (src/router.py lines 168–175) -/

/-- Argument mapping of a tool invocation.  The Python `Dict[str, Any]` uses a
    fixed set of keys; each is modelled by an optional typed field (`none` both
    for an absent key and for a key explicitly set to `None`, matching how the
    dispatchers read the mapping with `args.get`).  Python floats here are
    exact decimals, modelled by `ℚ`. -/
structure Args where
  floor : Option String := none
  k : Option Int := none
  hours : Option Nat := none
  days : Option Nat := none
  limit : Option Nat := none
  threshold : Option ℚ := none
  avoid_quiet : Option Bool := none
  quiet_weight : Option ℚ := none
  downweight_refreshment : Option ℚ := none
deriving Repr, DecidableEq

/-- The `Decision` dataclass (src/router.py lines 168–175). -/
structure Decision where
  mode : String
  name : Option String := none
  args : Option Args := none
  sql : Option String := none
  text : Option String := none
  trace : String := ""
deriving Repr, DecidableEq

/-- A `mode="tool"` decision. -/
def mkToolD (name : String) (args : Args) (trace : String) : Decision :=
  { mode := "tool", name := some name, args := some args, trace := trace }

/-- A `mode="sql"` decision. -/
def mkSqlD (sql trace : String) : Decision :=
  { mode := "sql", sql := some sql, trace := trace }

/-- A `mode="text"` decision. -/
def mkTextD (text trace : String) : Decision :=
  { mode := "text", text := some text, trace := trace }

/-! ## Python `repr` fragments for the f-string traces

The traces of the busiest/underused/coffee branches interpolate a Python dict
(`f"… {args}"`).  The functions below reproduce `repr` of those dicts: keys in
insertion order, strings quoted with `'`, floats printed as their shortest
decimal (all floats arising here are small two-decimal values, for which the
shortest round-trip repr is that decimal). -/

/-- `{` as text. -/
def lbrace : String := String.singleton (Char.ofNat 123)

/-- `}` as text. -/
def rbrace : String := String.singleton (Char.ofNat 125)

/-- `repr` of a Python string (single-quoted; no escaping needed here). -/
def pyQuote (s : String) : String := apos ++ s ++ apos

/-- `repr(n / 100.0)` for a natural `n`. -/
def pyFloatRepr100 (n : Nat) : String :=
  let ip := n / 100
  let fr := n % 100
  if fr = 0 then natRepr ip ++ ".0"
  else if fr % 10 = 0 then natRepr ip ++ "." ++ natRepr (fr / 10)
  else natRepr ip ++ "." ++ (if fr < 10 then "0" ++ natRepr fr else natRepr fr)

/-- `repr` of a Python float whose value is `n/100` (all floats in the traces). -/
def pyFloatRepr (r : ℚ) : String := pyFloatRepr100 ((r.num * 100 / (r.den : Int)).toNat)

/-- `repr({'days': d, 'limit': 5[, 'floor': fl]})` (busiest branch). -/
def busiestArgsRepr (d : Nat) (fl : Option String) : String :=
  lbrace ++ pyQuote "days" ++ ": " ++ natRepr d ++ ", " ++ pyQuote "limit" ++ ": 5" ++
  (match fl with
   | some f => ", " ++ pyQuote "floor" ++ ": " ++ pyQuote f
   | none => "") ++ rbrace

/-- `repr({'days': d, 'threshold': t[, 'floor': fl]})` (underused branch). -/
def underusedArgsRepr (d : Nat) (t : ℚ) (fl : Option String) : String :=
  lbrace ++ pyQuote "days" ++ ": " ++ natRepr d ++ ", " ++
  pyQuote "threshold" ++ ": " ++ pyFloatRepr t ++
  (match fl with
   | some f => ", " ++ pyQuote "floor" ++ ": " ++ pyQuote f
   | none => "") ++ rbrace

/-- `repr` of the coffee-planner args dict (all seven keys, insertion order). -/
def coffeeArgsRepr (fl : Option String) (k : Int) (hours : Option Nat) (d : Nat)
    (avoidQuiet : Bool) : String :=
  lbrace ++ pyQuote "floor" ++ ": " ++ (match fl with | some f => pyQuote f | none => "None") ++
  ", " ++ pyQuote "k" ++ ": " ++ intRepr k ++
  ", " ++ pyQuote "hours" ++ ": " ++ (match hours with | some h => natRepr h | none => "None") ++
  ", " ++ pyQuote "days" ++ ": " ++ natRepr d ++
  ", " ++ pyQuote "avoid_quiet" ++ ": " ++ (if avoidQuiet then "True" else "False") ++
  ", " ++ pyQuote "quiet_weight" ++ ": 0.6" ++
  ", " ++ pyQuote "downweight_refreshment" ++ ": 0.5" ++ rbrace

/-! ## Stage 1: fast intents — `_fast_intent` (src/router.py lines 196–268) -/

/-- The branch for free meeting rooms (lines 211–216). -/
def fastFreeMeeting (qn : String) : Option Decision :=
  if (occursS "free" qn || occursS "vrij" qn || occursS "متاح" qn) &&
     contains_any qn ["meeting room", "meeting rooms", "vergaderruimte", "vergaderruimtes",
                      "غرفة اجتماع", "غرف اجتماع"] &&
     contains_any qn ["now", "currently", "nu", "الان", "حالياً"] then
    match parse_floor qn with
    | some fl =>
      some (mkToolD "free_meeting_rooms_now" { floor := some fl }
        ("fast_intent: free_meeting_rooms_now floor=" ++ fl))
    | none => none
  else none

/-- The branch for utilization by floor (lines 219–222). -/
def fastUtilByFloor (qn : String) : Option Decision :=
  if occursS "utilization" qn &&
     (occursS "by floor" qn || occursS "per floor" qn || occursS "per verdieping" qn) then
    let d := orDefaultNat (parse_days_hours qn).1 7
    some (mkToolD "utilization_by_floor" { days := some d }
      ("fast_intent: utilization_by_floor days=" ++ natRepr d))
  else none

/-- The words of the first group of the utilization-of-floor regex (line 225). -/
def utilWords : List String := ["utilization", "bezetting", "benutting"]

/-- The words of the second group of that regex. -/
def floorWordsRe : List String := ["floor", "level", "storey", "verdiep", "etage"]

/-- `\b(utilization|bezetting|benutting)\b.*\b(floor|level|storey|verdiep|etage)\b`:
    some util word occurs whole-word, and some floor word occurs whole-word at
    or after the end of that occurrence. -/
def utilFloorSearch (prev : Option Char) (cs : List Char) : Bool :=
  (utilWords.any (fun u =>
     wholeWordAt u.data prev cs &&
     floorWordsRe.any (fun f =>
       wholeWordSearch f.data u.data.getLast? (cs.drop u.data.length)))) ||
  (match cs with
   | [] => false
   | c :: t => utilFloorSearch (some c) t)

/-- The branch for utilization of one floor (lines 225–231). -/
def fastUtilFloor (qn : String) : Option Decision :=
  if utilFloorSearch none qn.data then
    match parse_floor qn with
    | some fl =>
      let d := orDefaultNat (parse_days_hours qn).1 7
      some (mkToolD "utilization_floor" { floor := some fl, days := some d }
        ("fast_intent: utilization_floor floor=" ++ fl ++ " days=" ++ natRepr d))
    | none => none
  else none

/-- The branch for busiest rooms (lines 234–239). -/
def fastBusiest (qn : String) : Option Decision :=
  if occursS "busiest" qn || occursS "top rooms" qn || occursS "drukste" qn ||
     occursS "الاكثر ازدحاما" qn then
    let fl := parse_floor qn
    let d := orDefaultNat (parse_days_hours qn).1 7
    some (mkToolD "busiest_rooms" { floor := fl, days := some d, limit := some 5 }
      ("fast_intent: busiest_rooms " ++ busiestArgsRepr d fl))
  else none

/-- The branch for underused rooms (lines 242–248). -/
def fastUnderused (qn : String) : Option Decision :=
  if occursS "underused" qn || (occursS "least" qn && occursS "used" qn) ||
     occursS "onderbenut" qn || occursS "اقل استخداما" qn then
    let fl := parse_floor qn
    let d := orDefaultNat (parse_days_hours qn).1 30
    let thr := orDefaultRat (parse_threshold_percent qn) (mkRat 1 10)
    some (mkToolD "underused_rooms" { floor := fl, days := some d, threshold := some thr }
      ("fast_intent: underused_rooms " ++ underusedArgsRepr d thr fl))
  else none

/-- The branch for the coffee-machine planner (lines 251–266).  The Python
    dict stores `"floor": None` when no floor was parsed; `Args.floor = none`
    models that (the dispatchers read it with `args.get("floor")`). -/
def fastCoffee (qn : String) : Option Decision :=
  if contains_any qn ["coffee", "pantry", "kitchen", "koffie", "keuken", "مطبخ", "قهوة"] &&
     contains_any qn ["machine", "machines", "placement", "spots", "apparaat", "plaatsen",
                      "مكان", "اماكن"] then
    let fl := parse_floor qn
    let dh := parse_days_hours qn
    let k := orDefaultInt (parse_int qn) 2
    let avoidQuiet := !(occursS "ignore quiet" qn || occursS "dont avoid quiet" qn ||
                        occursS "don’t avoid quiet" qn || occursS "negeer rustig" qn)
    let d := orDefaultNat dh.1 14
    some (mkToolD "plan_coffee_machines"
      { floor := fl, k := some k, hours := dh.2, days := some d,
        avoid_quiet := some avoidQuiet, quiet_weight := some (mkRat 6 10),
        downweight_refreshment := some (mkRat 5 10) }
      ("fast_intent: plan_coffee_machines " ++ coffeeArgsRepr fl k dh.2 d avoidQuiet))
  else none

/-- `_fast_intent` (src/router.py lines 196–268): the ordered first-match-wins
    battery of matchers. -/
def fast_intent (q : String) : Option Decision :=
  let qn := normalize_text q
  if intent_list_floors q then
    some (mkToolD "list_floors" {} "fast_intent: list_floors → tool")
  else
    match intent_rooms_on_floor q with
    | some fl =>
      some (mkToolD "rooms_on_floor" { floor := some (intRepr fl) }
        ("fast_intent: rooms_on_floor floor=" ++ intRepr fl ++ " → tool"))
    | none =>
      (fastFreeMeeting qn).orElse fun _ =>
      (fastUtilByFloor qn).orElse fun _ =>
      (fastUtilFloor qn).orElse fun _ =>
      (fastBusiest qn).orElse fun _ =>
      (fastUnderused qn).orElse fun _ =>
      fastCoffee qn

/-! ## Stage 3 heuristic: `_needs_agent` (src/router.py lines 74–89) -/

/-- `compare\s+floors` at the current position. -/
def compareFloorsWordAt (cs : List Char) : Bool :=
  ("compare".data).isPrefixOf cs &&
  (let rest := cs.drop 7
   !(rest.takeWhile isWsC).isEmpty &&
   ("floors".data).isPrefixOf (rest.dropWhile isWsC))

/-- `re.search(r"compare\s+floors", ·)`. -/
def compareFloorsWordSearch : List Char → Bool
  | [] => false
  | c :: t => compareFloorsWordAt (c :: t) || compareFloorsWordSearch t

/-- `_needs_agent` (src/router.py lines 74–89). -/
def needs_agent (q : String) : Bool :=
  let ql := pyLower q
  (["why", "how", "explain", "recommend", "suggest", "tradeoff"].any
     (fun w => occursS w ql)) ||
  (["which rooms are", "what kind of", "describe", "policy", "rules", "definition",
    "meaning"].any (fun w => occursS w ql)) ||
  (occursS " and " ql && !compareFloorsWordSearch ql.data) ||
  decide (180 < ql.length)

/-! ## Stage 2: template SQL — `_fast_sql` (src/router.py lines 271–306) -/

/-- Require at least one whitespace character, then skip the whitespace run
    (the regex `\\s+`; greedy, and backtracking into it cannot help since the
    following pattern pieces never match a whitespace character). -/
def wsSkip1 (l : List Char) : Option (List Char) :=
  if (l.takeWhile isWsC).isEmpty then none else some (l.dropWhile isWsC)

/-- Match a literal, returning the rest. -/
def litP (w : String) (l : List Char) : Option (List Char) :=
  if w.data.isPrefixOf l then some (l.drop w.length) else none

/-- `compare\s+floors?\s+([+-]?\d+)\s+(?:and|&)\s+([+-]?\d+)` at the current
    position; returns the two capture groups.  The greedy `floors?` and the
    ordered alternation `(?:and|&)` become `orElse` chains; a successful
    backtrack out of `floors?` is impossible (after giving the `s` back, `\\s+`
    would have to match at `s`). -/
def compareFloorsNumsAt (cs : List Char) : Option (List Char × List Char) :=
  (litP "compare" cs).bind fun r1 =>
  (wsSkip1 r1).bind fun r2 =>
  ((litP "floors" r2).orElse fun _ => litP "floor" r2).bind fun r3 =>
  (wsSkip1 r3).bind fun r4 =>
  (signNum r4).bind fun g1r =>
  (wsSkip1 g1r.2).bind fun r6 =>
  ((litP "and" r6).orElse fun _ => litP "&" r6).bind fun r7 =>
  (wsSkip1 r7).bind fun r8 =>
  (signNum r8).map fun g2r => (g1r.1, g2r.1)

/-- `re.search` for the compare-floors pattern. -/
def compareFloorsNumsSearch : List Char → Option (List Char × List Char)
  | [] => none
  | c :: t =>
    match compareFloorsNumsAt (c :: t) with
    | some r => some r
    | none => compareFloorsNumsSearch t

/-- The fixed text of the compare-floors SQL f-string (lines 280–303) before
    the `{d}` hole. -/
def tplA : String :=
  "\n            WITH max_ts AS (SELECT MAX(event_timestamp) AS ts FROM events_all),\n            windowed AS (\n                SELECT s.floor_n AS floor,\n                       to_timestamp(e.event_timestamp/1000) AS ts,\n                       e.occupancy\n                FROM events_all e\n                JOIN spaces s ON e.space_id = s.uuid\n                WHERE to_timestamp(e.event_timestamp/1000) >=\n                     (SELECT to_timestamp(ts/1000) FROM max_ts) - INTERVAL " ++ apos

/-- The fixed text between the `{d}` and `{f1}` holes. -/
def tplB : String :=
  apos ++ " DAY\n            ),\n            hourly AS (\n                SELECT floor,\n                       date_trunc(" ++ apos ++ "hour" ++ apos ++ ", ts) AS hour,\n                       MAX(CASE WHEN LOWER(occupancy)=" ++ apos ++ "occupied" ++ apos ++ " THEN 1 ELSE 0 END) AS occ\n                FROM windowed\n                GROUP BY floor, hour\n            )\n            SELECT floor, ROUND(AVG(occ)*100,1) AS occ_rate_percent\n            FROM hourly\n            WHERE floor IN ("

/-- The fixed text between the `{f1}` and `{f2}` holes. -/
def tplC : String := ", "

/-- The fixed text after the `{f2}` hole. -/
def tplD : String := ")\n            GROUP BY floor\n            ORDER BY floor\n        "

/-- The interpolated compare-floors SQL text. -/
def compare_template (f1 f2 : String) (d : Nat) : String :=
  tplA ++ natRepr d ++ tplB ++ f1 ++ tplC ++ f2 ++ tplD

/-- `_fast_sql` (src/router.py lines 271–306).  The call to
    `_ensure_safe_select` can raise, and `_fast_sql` does not catch, so the
    result is `Except` (an `.error` models the exception escaping). -/
def fast_sql (parse : String → Bool) (q : String) : Except String (Option Decision) :=
  let ql := pyLower q
  match compareFloorsNumsSearch ql.data with
  | none => .ok none
  | some (g1, g2) =>
    let f1 := String.mk g1
    let f2 := String.mk g2
    let d := orDefaultNat (parse_days_hours ql).1 7
    match ensure_safe_select parse (compare_template f1 f2 d) with
    | .error e => .error e
    | .ok s =>
      .ok (some (mkSqlD s
        ("fast_sql: compare floors " ++ f1 ++ " vs " ++ f2 ++ " days=" ++ natRepr d)))

/-! ## Stage 4 and the full pipeline: `NLRouter.infer` (src/router.py lines 309–395)

The language model, the JSON parser for tool arguments and the SQL-extraction
regex over the model's free text are external collaborators; they enter as
oracles.  `LLMOut.err` models the API call raising; a nonempty `tool_calls`
list models `msg.tool_calls` being truthy (the code uses only the first
element). -/

/-- Feature flags of src/router.py lines 16–19, at their default values
    (`"1"`). -/
structure RouterConfig where
  fast_intents : Bool := true
  fast_sql : Bool := true
  llm_routing : Bool := true
  strict_mode : Bool := true
deriving Repr, DecidableEq

/-- One tool call of the model response; `fnName`/`fnArgs` are the `name` and
    `arguments` attributes (`none` when the attribute is missing; the code
    treats the empty string the same via Python truthiness). -/
structure LLMToolCall where
  fnName : Option String
  fnArgs : Option String
deriving Repr, DecidableEq

/-- Outcome of `self.client.chat.completions.create`. -/
inductive LLMOut where
  | err (msg : String)
  | msg (tool_calls : List LLMToolCall) (content : String)
deriving Repr, DecidableEq

/-- `NLRouter.infer` (src/router.py lines 315–395).

* `parse` — sqlglot oracle (used by stage 2 and by the stage-4 SQL fallback);
* `llm` — the model response for this question;
* `jsonParseArgs` — `json.loads` on the tool-call argument string (`none`
  models a raised exception, which the code turns into `{}`);
* `extractSQL` — the ```sql fenced-block / `(select\s.+)$` extraction over the
  model's free text (returns the raw group 1).

A `.error` result models an uncaught exception: the only one possible is the
safety-gate `ValueError` escaping from `_fast_sql` (stage 2 runs outside the
`try` block of stage 4). -/
def infer (cfg : RouterConfig) (parse : String → Bool) (llm : LLMOut)
    (jsonParseArgs : String → Option Args) (extractSQL : String → Option String)
    (user_text : String) : Except String Decision :=
  let q := stripS user_text
  let stage1 : Option Decision := if cfg.fast_intents then fast_intent q else none
  match stage1 with
  | some d => .ok d
  | none =>
    let stage2 : Except String (Option Decision) :=
      if cfg.fast_sql then fast_sql parse q else .ok none
    match stage2 with
    | .error e => .error e
    | .ok (some d) => .ok d
    | .ok none =>
      if needs_agent q then .ok { mode := "agent", trace := "heuristic: needs_agent" }
      else if !cfg.llm_routing then
        .ok (mkTextD "I can’t answer that from your provided data and tools." "llm_routing disabled")
      else
        match llm with
        | .err e => .ok (mkTextD ("Router error: " ++ e) "exception")
        | .msg toolCalls content =>
          match toolCalls with
          | tc :: _ =>
            let name : Option String :=
              match tc.fnName with
              | some s => if s = "" then none else some s
              | none => none
            let argsStr : String :=
              match tc.fnArgs with
              | some s => if s = "" then "{}" else s
              | none => "{}"
            let args : Args :=
              if stripS argsStr = "" then {} else (jsonParseArgs argsStr).getD {}
            .ok { mode := "tool", name := name, args := some args, trace := "llm: tool_choice" }
          | [] =>
            match extractSQL content with
            | some raw =>
              match ensure_safe_select parse (stripS raw) with
              | .ok s => .ok (mkSqlD s "llm: sql_fallback")
              | .error e => .ok (mkTextD ("Router error: " ++ e) "exception")
            | none =>
              if cfg.strict_mode then
                .ok (mkTextD "I can’t answer that from your provided data. Try specifying a floor/room/time window or ask for a metric." "llm: no tool/SQL; strict refusal")
              else
                .ok (mkTextD (if content = "" then "I’m not sure." else content) "llm: plain text")

/-! ## The Tool Dispatchers

The storage backend's analytic operations (src/db.py), the coffee-machine
planner's data pipeline (src/planner.py `plan_coffee_machines`) and the data
profile builder are external collaborators per the specification; they enter
as an oracle record `Backend`.  Tables are modelled only up to their row list
(`[]` is an empty DataFrame; `none` a `df` of `None`). -/

/-- A tabular result: list of rows. -/
abbrev Table := List (List String)

/-- `PlanOptions` (src/planner.py lines 13–21). -/
structure PlanOptions where
  floor : Option String := none
  k : Int := 2
  hours : Option Nat := none
  days : Nat := 14
  avoid_quiet : Bool := true
  quiet_weight : ℚ := mkRat 6 10
  downweight_refreshment : ℚ := mkRat 5 10
deriving Repr, DecidableEq

/-- The backend operations called by the dispatchers, as oracles. -/
structure Backend where
  list_floors : Table
  rooms_on_floor : String → Table
  status_floor_now : String → Table
  free_meeting_rooms_now : String → Table
  busiest_rooms : Option String → Nat → Nat → Table
  underused_rooms : Option String → Nat → ℚ → Table
  utilization_floor : String → Nat → Table
  utilization_by_floor : Nat → Table
  plan_coffee_machines : PlanOptions → Table
  profile_markdown : String
  overview_table : Table

/-- Result shape of `AgentPro._run_tool`: `{"title": …, "df": …, "text": …}`. -/
structure ToolRes where
  title : String
  text : String
  df : Option Table
deriving Repr, DecidableEq

/-- `"now" in json.dumps(args).lower()` (src/agent.py line 77).  The dumped
    keys are fixed and the non-string values render as digits, `true`, `false`
    or `null`, so `"now"` can occur only inside the `floor` string value. -/
def argsMentionNow (a : Args) : Bool :=
  match a.floor with
  | some f => occursS "now" (pyLower f)
  | none => false

/-- Python truthiness of `args.get("floor")` for our typed `Args`. -/
def floorTruthy (a : Args) : Bool :=
  match a.floor with
  | some f => !(f = "")
  | none => false

/-- `AgentPro._run_tool` (src/agent.py lines 33–91).  A `.error` models a
    raised exception: `ValueError` for an unknown tool name, `KeyError` for a
    missing required argument (`args["floor"]`). -/
def agent_run_tool (b : Backend) (name : String) (a : Args) : Except String ToolRes :=
  if name = "list_floors" then
    .ok { title := "Floors", text := "Floors", df := some b.list_floors }
  else if name = "rooms_on_floor" then
    match a.floor with
    | some f => .ok { title := "Rooms " ++ f, text := "Rooms", df := some (b.rooms_on_floor f) }
    | none => .error "KeyError: floor"
  else if name = "status_floor_now" then
    match a.floor with
    | some f => .ok { title := "Status " ++ f, text := "Status", df := some (b.status_floor_now f) }
    | none => .error "KeyError: floor"
  else if name = "free_meeting_rooms_now" then
    match a.floor with
    | some f => .ok { title := "Free rooms " ++ f, text := "Free", df := some (b.free_meeting_rooms_now f) }
    | none => .error "KeyError: floor"
  else if name = "busiest_rooms" then
    .ok { title := "Busiest", text := "Busiest",
          df := some (b.busiest_rooms a.floor (a.days.getD 7) (a.limit.getD 5)) }
  else if name = "underused_rooms" then
    .ok { title := "Underused", text := "Underused",
          df := some (b.underused_rooms a.floor (a.days.getD 30) (a.threshold.getD (mkRat 1 10))) }
  else if name = "utilization_floor" then
    match a.floor with
    | some f => .ok { title := "Util " ++ f, text := "Util",
                      df := some (b.utilization_floor f (a.days.getD 7)) }
    | none => .error "KeyError: floor"
  else if name = "utilization_by_floor" then
    .ok { title := "Util by floor", text := "Util-by-floor",
          df := some (b.utilization_by_floor (a.days.getD 7)) }
  else if name = "plan_coffee_machines" then
    let hours := match a.hours with
      | some h => some h
      | none => if argsMentionNow a then some 1 else none
    let opts : PlanOptions :=
      { floor := a.floor, k := a.k.getD 2, hours := hours, days := a.days.getD 14,
        avoid_quiet := a.avoid_quiet.getD true,
        quiet_weight := a.quiet_weight.getD (mkRat 6 10),
        downweight_refreshment := a.downweight_refreshment.getD (mkRat 5 10) }
    let text := "Optimized coffee-machine placement" ++
      (if floorTruthy a then " on floor " ++ (a.floor.getD "") else "")
    .ok { title := "Coffee machine plan", text := text,
          df := some (b.plan_coffee_machines opts) }
  else
    .error ("Unknown tool " ++ name)

/-- The relaxed retry arguments of the coffee auto-repair (src/agent.py lines
    131–134 and 157–159): drop `hours`, widen `days` to at least 14, disable
    quiet-area avoidance. -/
def relax_args (a : Args) : Args :=
  { a with hours := none, days := some (max (a.days.getD 14) 14), avoid_quiet := some false }

/-- The tool-execution step of `AgentPro.run` with its auto-repair policy
    (src/agent.py lines 127–136, and identically lines 155–161 on the
    router-fallback path).  The second component records every `_run_tool`
    invocation performed, in order, so that the retry policy can be stated. -/
def agent_tool_step (b : Backend) (name : String) (a : Args) :
    Except String (ToolRes × List (String × Args)) :=
  match agent_run_tool b name a with
  | .error e => .error e
  | .ok res =>
    if res.df = some [] && name = "plan_coffee_machines" then
      match agent_run_tool b name (relax_args a) with
      | .error e => .error e
      | .ok res2 =>
        .ok ({ res2 with text := res2.text ++ " (auto-repaired: widened window, relaxed quiet)" },
             [(name, a), (name, relax_args a)])
    else
      .ok (res, [(name, a)])

/-- Result shape of `Chatbot._run_tool`: a `ChatResponse` (src/chatbot.py
    lines 17–19).  `evTool`/`evArgs` model the evidence dict's `tool`/`args`
    entries. -/
structure ChatResp where
  text : String
  df : Option Table := none
  title : Option String := none
  evTool : Option String := none
  evArgs : Option Args := none
deriving Repr, DecidableEq

/-- `Chatbot._run_tool` (src/chatbot.py lines 35–146).  Unlike the agent
    dispatcher it performs no retry and returns an ordinary `ChatResponse`
    (text only) for an unknown tool name; a `.error` models the `KeyError`
    of a missing required `args["floor"]`. -/
def chatbot_run_tool (b : Backend) (name : String) (a : Args) : Except String ChatResp :=
  if name = "list_floors" then
    .ok { text := "Floors detected.", df := some b.list_floors, title := some "Floors",
          evTool := some name }
  else if name = "rooms_on_floor" then
    match a.floor with
    | some f =>
      let df := b.rooms_on_floor f
      .ok { text := natRepr df.length ++ " rooms on " ++ f ++ ".", df := some df,
            title := some ("Rooms on " ++ f), evTool := some name, evArgs := some a }
    | none => .error "KeyError: floor"
  else if name = "status_floor_now" then
    match a.floor with
    | some f =>
      let df := b.status_floor_now f
      .ok { text := natRepr df.length ++ " rooms shown for " ++ f ++ ".", df := some df,
            title := some ("Status — " ++ f), evTool := some name, evArgs := some a }
    | none => .error "KeyError: floor"
  else if name = "free_meeting_rooms_now" then
    match a.floor with
    | some f =>
      .ok { text := "Free meeting rooms now on " ++ f ++ ".",
            df := some (b.free_meeting_rooms_now f),
            title := some ("Free rooms — " ++ f), evTool := some name, evArgs := some a }
    | none => .error "KeyError: floor"
  else if name = "busiest_rooms" then
    let whereS := if floorTruthy a then " on floor " ++ (a.floor.getD "") else ""
    .ok { text := "Top busiest rooms" ++ whereS ++ " (last " ++ natRepr (a.days.getD 7) ++ " days).",
          df := some (b.busiest_rooms a.floor (a.days.getD 7) (a.limit.getD 5)),
          title := some ("Busiest rooms" ++ whereS), evTool := some name, evArgs := some a }
  else if name = "underused_rooms" then
    let whereS := if floorTruthy a then " on floor " ++ (a.floor.getD "") else ""
    .ok { text := "Underused rooms" ++ whereS ++ " (last " ++ natRepr (a.days.getD 30) ++ " days).",
          df := some (b.underused_rooms a.floor (a.days.getD 30) (a.threshold.getD (mkRat 1 10))),
          title := some ("Underused rooms" ++ whereS), evTool := some name, evArgs := some a }
  else if name = "utilization_floor" then
    match a.floor with
    | some f =>
      .ok { text := "Average utilization of floor " ++ f ++ " (last " ++
                    natRepr (a.days.getD 7) ++ " days).",
            df := some (b.utilization_floor f (a.days.getD 7)),
            title := some ("Utilization — Floor " ++ f), evTool := some name, evArgs := some a }
    | none => .error "KeyError: floor"
  else if name = "utilization_by_floor" then
    .ok { text := "Average utilization by floor (last " ++ natRepr (a.days.getD 7) ++ " days).",
          df := some (b.utilization_by_floor (a.days.getD 7)),
          title := some "Utilization by floor", evTool := some name, evArgs := some a }
  else if name = "plan_coffee_machines" then
    let opts : PlanOptions :=
      { floor := a.floor, k := a.k.getD 2, hours := a.hours, days := a.days.getD 14,
        avoid_quiet := a.avoid_quiet.getD true,
        quiet_weight := a.quiet_weight.getD (mkRat 6 10),
        downweight_refreshment := a.downweight_refreshment.getD (mkRat 5 10) }
    let whereS := if floorTruthy a then " on floor " ++ (a.floor.getD "") else ""
    .ok { text := "Optimized coffee-machine placement" ++ whereS ++
                  ". Higher score = more demand, fewer conflicts.",
          df := some (b.plan_coffee_machines opts),
          title := some ("Coffee machine plan" ++ whereS), evTool := some name, evArgs := some a }
  else if name = "data_profile_summary" then
    .ok { text := "### Data profile\n" ++ b.profile_markdown, df := some b.list_floors,
          title := some "Building data profile", evTool := some name }
  else if name = "data_overview" then
    .ok { text := "Overview of building usage — average utilization per floor (7d & 30d).",
          df := some b.overview_table, title := some "Usage overview" }
  else
    .ok { text := "Unknown tool: " ++ name }

/-- The tool names recognized by `AgentPro._run_tool`. -/
def agentToolNames : List String :=
  ["list_floors", "rooms_on_floor", "status_floor_now", "free_meeting_rooms_now",
   "busiest_rooms", "underused_rooms", "utilization_floor", "utilization_by_floor",
   "plan_coffee_machines"]

/-- The tool names recognized by `Chatbot._run_tool`. -/
def chatbotToolNames : List String :=
  agentToolNames ++ ["data_profile_summary", "data_overview"]

/-! ## Character-class facts -/

/-- Characters a matched `[+-]?\d+` group can contain. -/
def isSignDigit (c : Char) : Bool := c.isDigit || c = '+' || c = '-'

/-! ## The compare-floors template always passes the safety gate

The fixed lowered segments of the template, and the stripped core pieces. -/

def lowTplA : List Char := lowerL tplA.data

def lowTplB : List Char := lowerL tplB.data

def lowTplC : List Char := lowerL tplC.data

def lowTplD : List Char := lowerL tplD.data

def tplAcore : List Char := lowTplA.dropWhile isWsC

def tplDcore : List Char := (lowTplD.reverse.dropWhile isWsC).reverse

/-! ## Decision-shape invariants (for the Decision Record claims) -/

/-- Shape of every deterministic tool decision. -/
def ToolInv (d : Decision) : Prop :=
  d.mode = "tool" ∧ d.name.isSome = true ∧ d.args.isSome = true ∧ d.sql = none ∧
  d.text = none ∧ d.trace ≠ ""

/-- The oracle record with every table empty (a backend whose data files hold
    no rows), used as a concrete instance in several theorems. -/
def emptyBackend : Backend :=
  { list_floors := [], rooms_on_floor := fun _ => [], status_floor_now := fun _ => [],
    free_meeting_rooms_now := fun _ => [], busiest_rooms := fun _ _ _ => [],
    underused_rooms := fun _ _ _ => [], utilization_floor := fun _ _ => [],
    utilization_by_floor := fun _ => [], plan_coffee_machines := fun _ => [],
    profile_markdown := "", overview_table := [] }

/-- Modelled from the spec's words (claim C2): a keyword occurs "as a
    standalone whole word" when it matches under regex word boundaries `\b`
    (the keyword's neighbours, if any, are non-word characters). -/
def specWholeWord (kw s : String) : Bool :=
  wholeWordSearch kw.data none s.data

/-! ## Bridging the boolean string functions to `List` order relations -/

theorem isPrefixOf_iff {n h : List Char} : n.isPrefixOf h = true ↔ n <+: h := by
  induction n generalizing h with
  | nil => simp [List.isPrefixOf]
  | cons c t ih =>
    cases h with
    | nil => simp [List.isPrefixOf]
    | cons c' t' =>
      simp only [List.isPrefixOf, Bool.and_eq_true, beq_iff_eq, List.cons_prefix_cons, ih]

theorem occursIn_iff {n h : List Char} : occursIn n h = true ↔ n <:+: h := by
  induction h with
  | nil => simp [occursIn, List.isEmpty_iff]
  | cons c t ih =>
    simp only [occursIn, Bool.or_eq_true, isPrefixOf_iff, ih, List.infix_cons_iff]

theorem occursIn_eq_false_iff {n h : List Char} : occursIn n h = false ↔ ¬ n <:+: h := by
  rw [← occursIn_iff]
  cases occursIn n h <;> simp

/-! ## Infrastructure lemmas about segments, whitespace and stripping

These support the idempotence, no-raise and gate-equivalence proofs: a needle
none of whose characters satisfy `p` cannot overlap a block all of whose
characters satisfy `p`. -/

theorem infix_skip_left {p : Char → Bool} {n h b : List Char}
    (hh : ∀ c ∈ h, p c = true) (hn : ∀ c ∈ n, p c = false) :
    n <:+: (h ++ b) → n <:+: b := by
  induction h with
  | nil => simp
  | cons c t ih =>
    intro hin
    rcases List.infix_cons_iff.mp hin with hpre | htail
    · cases n with
      | nil => exact List.nil_infix
      | cons d n' =>
        rcases List.cons_prefix_cons.mp hpre with ⟨rfl, _⟩
        have h1 := hh d (by simp)
        have h2 := hn d (by simp)
        rw [h1] at h2
        cases h2
    · exact ih (fun c hc => hh c (by simp [hc])) htail

theorem infix_skip_right {p : Char → Bool} {n a h : List Char}
    (hh : ∀ c ∈ h, p c = true) (hn : ∀ c ∈ n, p c = false) :
    n <:+: (a ++ h) → n <:+: a := by
  intro hin
  have hrev : n.reverse <:+: (h.reverse ++ a.reverse) := by
    rw [← List.reverse_append]
    exact List.reverse_infix.mpr hin
  have h2 := infix_skip_left (p := p)
    (fun c hc => hh c (List.mem_reverse.mp hc))
    (fun c hc => hn c (List.mem_reverse.mp hc)) hrev
  have h3 : n.reverse <:+: a.reverse := h2
  exact List.reverse_infix.mp h3

theorem prefix_stop {p : Char → Bool} {n a h b : List Char} (hne : h ≠ [])
    (hh : ∀ c ∈ h, p c = true) (hn : ∀ c ∈ n, p c = false) :
    n <+: (a ++ (h ++ b)) → n <+: a := by
  induction a generalizing n with
  | nil =>
    intro hp
    cases n with
    | nil => exact List.nil_prefix
    | cons d n' =>
      cases h with
      | nil => exact absurd rfl hne
      | cons e t =>
        rw [List.nil_append, List.cons_append] at hp
        rcases List.cons_prefix_cons.mp hp with ⟨rfl, _⟩
        have h1 := hh d (by simp)
        have h2 := hn d (by simp)
        rw [h1] at h2
        cases h2
  | cons c a' ih =>
    intro hp
    cases n with
    | nil => exact List.nil_prefix
    | cons d n' =>
      rw [List.cons_append] at hp
      rcases List.cons_prefix_cons.mp hp with ⟨rfl, h2⟩
      exact List.cons_prefix_cons.mpr ⟨rfl, ih (fun c hc => hn c (by simp [hc])) h2⟩

theorem infix_split {p : Char → Bool} {n a h b : List Char} (hne : h ≠ [])
    (hh : ∀ c ∈ h, p c = true) (hn : ∀ c ∈ n, p c = false) :
    n <:+: (a ++ h ++ b) → n <:+: a ∨ n <:+: b := by
  rw [List.append_assoc]
  induction a with
  | nil =>
    intro hin
    right
    exact infix_skip_left hh hn (by simpa using hin)
  | cons c a' ih =>
    intro hin
    rw [List.cons_append] at hin
    rcases List.infix_cons_iff.mp hin with hpre | htail
    · left
      have hp : n <+: ((c :: a') ++ (h ++ b)) := by simpa using hpre
      exact (prefix_stop hne hh hn hp).isInfix
    · rcases ih htail with h1 | h2
      · left
        exact List.infix_cons h1
      · right
        exact h2

theorem needle_ws_left {kw w1 rest : List Char} (hkw : kw ≠ [])
    (hk : ∀ c ∈ kw, isWsC c = false) (hw : ∀ c ∈ w1, isWsC c = true) :
    (' ' :: (kw ++ [' '])) <:+: (w1 ++ rest) → (' ' :: (kw ++ [' '])) <:+: (' ' :: rest) := by
  induction w1 with
  | nil =>
    intro h
    exact List.infix_cons (by simpa using h)
  | cons c t ih =>
    intro hin
    rcases List.infix_cons_iff.mp hin with hpre | htail
    · rcases List.cons_prefix_cons.mp hpre with ⟨hc, h2⟩
      cases t with
      | nil =>
        exact (List.cons_prefix_cons.mpr ⟨rfl, by simpa using h2⟩).isInfix
      | cons e t' =>
        cases kw with
        | nil => exact absurd rfl hkw
        | cons k0 kt =>
          have h2' : k0 :: (kt ++ [' ']) <+: e :: (t' ++ rest) := by simpa using h2
          rcases List.cons_prefix_cons.mp h2' with ⟨rfl, _⟩
          have h1 := hw k0 (by simp)
          have h3 := hk k0 (by simp)
          rw [h1] at h3
          cases h3
    · exact ih (fun c hc => hw c (by simp [hc])) htail

theorem needle_ws_right {kw rest w2 : List Char} (hkw : kw ≠ [])
    (hk : ∀ c ∈ kw, isWsC c = false) (hw : ∀ c ∈ w2, isWsC c = true) :
    (' ' :: (kw ++ [' '])) <:+: (rest ++ w2) → (' ' :: (kw ++ [' '])) <:+: (rest ++ [' ']) := by
  intro hin
  have hshape : (' ' :: (kw ++ [' '])).reverse = ' ' :: (kw.reverse ++ [' ']) := by
    simp
  have hrev : (' ' :: (kw.reverse ++ [' '])) <:+: (w2.reverse ++ rest.reverse) := by
    rw [← hshape, ← List.reverse_append]
    exact List.reverse_infix.mpr hin
  have h2 := @needle_ws_left kw.reverse w2.reverse rest.reverse (by simpa using hkw)
    (fun c hc => hk c (List.mem_reverse.mp hc))
    (fun c hc => hw c (List.mem_reverse.mp hc)) hrev
  have h3 : (' ' :: (kw ++ [' '])).reverse <:+: (rest ++ [' ']).reverse := by
    rw [hshape]
    simpa using h2
  exact List.reverse_infix.mp h3

/-! Decomposition of `strip` and its basic properties. -/

theorem head_dropWhile_false {p : Char → Bool} {l : List Char} {c : Char}
    (h : (l.dropWhile p).head? = some c) : p c = false := by
  induction l with
  | nil => simp [List.dropWhile] at h
  | cons a t ih =>
    by_cases hp : p a
    · rw [List.dropWhile_cons_of_pos hp] at h
      exact ih h
    · rw [List.dropWhile_cons_of_neg hp] at h
      simp only [List.head?_cons, Option.some.injEq] at h
      subst h
      simpa using hp

theorem dropWhile_eq_self_of_head {p : Char → Bool} {xs : List Char}
    (h : ∀ c, xs.head? = some c → p c = false) : xs.dropWhile p = xs := by
  cases xs with
  | nil => rfl
  | cons c t =>
    have := h c rfl
    rw [List.dropWhile_cons_of_neg (by simp [this])]

theorem stripL_decomp (xs : List Char) :
    ∃ w1 w2, xs = w1 ++ stripL xs ++ w2 ∧
      (∀ c ∈ w1, isWsC c = true) ∧ (∀ c ∈ w2, isWsC c = true) := by
  refine ⟨xs.takeWhile isWsC, ((xs.dropWhile isWsC).reverse.takeWhile isWsC).reverse, ?_, ?_, ?_⟩
  · conv_lhs => rw [← List.takeWhile_append_dropWhile (p := isWsC) (l := xs)]
    rw [List.append_assoc]
    congr 1
    conv_lhs =>
      rw [← List.reverse_reverse (xs.dropWhile isWsC),
        ← List.takeWhile_append_dropWhile (p := isWsC) (l := (xs.dropWhile isWsC).reverse),
        List.reverse_append]
    rfl
  · exact fun c hc => List.mem_takeWhile_imp hc
  · exact fun c hc => List.mem_takeWhile_imp (List.mem_reverse.mp hc)

theorem stripL_eq_self {xs : List Char}
    (h1 : ∀ c, xs.head? = some c → isWsC c = false)
    (h2 : ∀ c, xs.getLast? = some c → isWsC c = false) : stripL xs = xs := by
  unfold stripL
  rw [dropWhile_eq_self_of_head h1]
  rw [dropWhile_eq_self_of_head (fun c hc => h2 c (by rwa [List.head?_reverse] at hc))]
  exact List.reverse_reverse xs

theorem head?_of_pref {p y : List Char} {c : Char} (h : p <+: y) (hp : p.head? = some c) :
    y.head? = some c := by
  cases p with
  | nil => simp at hp
  | cons d t =>
    rcases h with ⟨r, rfl⟩
    simpa using hp

theorem stripL_prefix_dropWhile (xs : List Char) : stripL xs <+: xs.dropWhile isWsC := by
  have h3 : ((xs.dropWhile isWsC).reverse.dropWhile isWsC).reverse <+:
      (xs.dropWhile isWsC).reverse.reverse :=
    List.reverse_prefix.mpr (List.dropWhile_suffix isWsC)
  simpa [stripL] using h3

theorem stripL_head_false {xs : List Char} {c : Char}
    (h : (stripL xs).head? = some c) : isWsC c = false :=
  head_dropWhile_false (head?_of_pref (stripL_prefix_dropWhile xs) h)

theorem stripL_getLast_false {xs : List Char} {c : Char}
    (h : (stripL xs).getLast? = some c) : isWsC c = false := by
  have h1 : ((xs.dropWhile isWsC).reverse.dropWhile isWsC).head? = some c := by
    have h2 := List.head?_reverse (stripL xs)
    rw [h] at h2
    simpa [stripL] using h2
  exact head_dropWhile_false h1

theorem stripL_idem (xs : List Char) : stripL (stripL xs) = stripL xs :=
  stripL_eq_self (fun _ h => stripL_head_false h) (fun _ h => stripL_getLast_false h)

theorem stripL_cons_ws {xs : List Char} : stripL (' ' :: xs) = stripL xs := by
  unfold stripL
  rw [List.dropWhile_cons_of_pos (by decide)]

theorem stripL_append_ws {xs : List Char} : stripL (xs ++ [' ']) = stripL xs := by
  unfold stripL
  rw [List.dropWhile_append]
  by_cases h : (xs.dropWhile isWsC).isEmpty
  · rw [if_pos h]
    rw [List.isEmpty_iff] at h
    rw [h]
    decide
  · rw [if_neg h]
    rw [List.reverse_append]
    simp only [List.reverse_cons, List.reverse_nil, List.nil_append, List.singleton_append]
    rw [List.dropWhile_cons_of_pos (by decide)]

theorem stripL_pad_strip (x : List Char) :
    stripL (' ' :: (stripL x ++ [' '])) = stripL x := by
  rw [stripL_cons_ws, stripL_append_ws, stripL_idem]

theorem isDigit_toNat_le {c : Char} (h : c.isDigit = true) : c.toNat ≤ 57 := by
  simp only [Char.isDigit] at h
  rcases Bool.and_eq_true _ _ |>.mp h with ⟨_, h2⟩
  have h2' : c.val ≤ 57 := of_decide_eq_true h2
  have h3 := BitVec.le_def.mp (UInt32.le_def.mp h2')
  simpa [Char.toNat, UInt32.toNat] using h3

theorem isDigit_toNat_ge {c : Char} (h : c.isDigit = true) : 48 ≤ c.toNat := by
  simp only [Char.isDigit] at h
  rcases Bool.and_eq_true _ _ |>.mp h with ⟨h1, _⟩
  have h1' : (48 : UInt32) ≤ c.val := of_decide_eq_true h1
  have h3 := BitVec.le_def.mp (UInt32.le_def.mp h1')
  simpa [Char.toNat, UInt32.toNat] using h3

theorem toLower_eq_self_of_lt {c : Char} (h : c.toNat < 65) : c.toLower = c := by
  simp only [Char.toNat] at h
  simp only [Char.toLower, Char.toNat]
  rw [if_neg (by omega)]

theorem toLower_signDigit {c : Char} (h : isSignDigit c = true) : c.toLower = c := by
  simp only [isSignDigit, Bool.or_eq_true] at h
  rcases h with (hd | hp) | hm
  · exact toLower_eq_self_of_lt (by have := isDigit_toNat_le hd; omega)
  · have hc : c = '+' := by simpa using hp
    subst hc; decide
  · have hc : c = '-' := by simpa using hm
    subst hc; decide

theorem isWsC_toNat {c : Char} (h : isWsC c = true) : c.toNat ≤ 32 := by
  simp only [isWsC, Bool.or_eq_true] at h
  rcases h with ((((h | h) | h) | h) | h) | h <;>
    · have hc := of_decide_eq_true h
      subst hc
      decide

theorem signDigit_not_ws {c : Char} (h : isSignDigit c = true) : isWsC c = false := by
  simp only [isSignDigit, Bool.or_eq_true] at h
  rcases h with (hd | hp) | hm
  · by_contra hw
    have hw' : isWsC c = true := by
      revert hw
      cases isWsC c <;> simp
    have h1 := isWsC_toNat hw'
    have h2 := isDigit_toNat_ge hd
    omega
  · have hc : c = '+' := by simpa using hp
    subst hc; decide
  · have hc : c = '-' := by simpa using hm
    subst hc; decide

theorem signDigit_ne_semicolon {c : Char} (h : isSignDigit c = true) : c ≠ ';' := by
  simp only [isSignDigit, Bool.or_eq_true] at h
  rcases h with (hd | hp) | hm
  · intro hc
    subst hc
    simp [Char.isDigit] at hd
  · have hc : c = '+' := by simpa using hp
    subst hc; decide
  · have hc : c = '-' := by simpa using hm
    subst hc; decide

theorem lowerL_id_of_signDigit {g : List Char} (h : ∀ c ∈ g, isSignDigit c = true) :
    lowerL g = g := by
  induction g with
  | nil => rfl
  | cons c t ih =>
    simp only [lowerL, List.map_cons]
    rw [toLower_signDigit (h c (by simp))]
    have := ih (fun c hc => h c (by simp [hc]))
    simp only [lowerL] at this
    rw [this]

theorem ofNat_digit_isDigit {m : Nat} (h : m < 10) : (Char.ofNat (48 + m)).isDigit = true := by
  interval_cases m <;> decide

theorem natReprAux_digits {fuel n : Nat} {acc : List Char}
    (hacc : ∀ c ∈ acc, c.isDigit = true) :
    ∀ c ∈ natReprAux fuel n acc, c.isDigit = true := by
  induction fuel generalizing n acc with
  | zero => exact hacc
  | succ fuel ih =>
    simp only [natReprAux]
    by_cases h : n < 10
    · rw [if_pos h]
      intro c hc
      rcases List.mem_cons.mp hc with rfl | hc'
      · exact ofNat_digit_isDigit (Nat.mod_lt _ (by omega))
      · exact hacc c hc'
    · rw [if_neg h]
      refine ih ?_
      intro c hc
      rcases List.mem_cons.mp hc with rfl | hc'
      · exact ofNat_digit_isDigit (Nat.mod_lt _ (by omega))
      · exact hacc c hc'

theorem natRepr_signDigit (n : Nat) : ∀ c ∈ (natRepr n).data, isSignDigit c = true := by
  intro c hc
  have : c.isDigit = true := @natReprAux_digits (n + 1) n [] (by simp) c hc
  simp [isSignDigit, this]

theorem natReprAux_ne_nil {fuel n : Nat} {acc : List Char} (h : fuel ≠ 0 ∨ acc ≠ []) :
    natReprAux fuel n acc ≠ [] := by
  induction fuel generalizing n acc with
  | zero =>
    rcases h with h | h
    · exact absurd rfl h
    · exact h
  | succ fuel ih =>
    simp only [natReprAux]
    by_cases h10 : n < 10
    · rw [if_pos h10]; simp
    · rw [if_neg h10]
      exact ih (Or.inr (by simp))

theorem natRepr_ne_nil (n : Nat) : (natRepr n).data ≠ [] :=
  natReprAux_ne_nil (Or.inl (Nat.succ_ne_zero n))

theorem takeWhile_digits {l : List Char} : ∀ c ∈ l.takeWhile Char.isDigit, isSignDigit c = true :=
  fun _ hc => by simp [isSignDigit, List.mem_takeWhile_imp hc]

theorem signNum_chars {cs : List Char} {g r : List Char} (h : signNum cs = some (g, r)) :
    g ≠ [] ∧ ∀ c ∈ g, isSignDigit c = true := by
  cases cs with
  | nil => simp [signNum] at h
  | cons c rest =>
    simp only [signNum] at h
    by_cases hc : (c = '+' || c = '-') = true
    · rw [if_pos hc] at h
      by_cases hds : (rest.takeWhile Char.isDigit).isEmpty = true
      · rw [if_pos hds] at h; cases h
      · rw [if_neg hds] at h
        simp only [Option.some.injEq, Prod.mk.injEq] at h
        obtain ⟨hg, _⟩ := h
        subst hg
        refine ⟨by simp, ?_⟩
        intro d hd
        rcases List.mem_cons.mp hd with rfl | hd'
        · simp only [isSignDigit, Bool.or_eq_true] at hc ⊢
          tauto
        · exact takeWhile_digits d hd'
    · rw [if_neg hc] at h
      by_cases hds : ((c :: rest).takeWhile Char.isDigit).isEmpty = true
      · rw [if_pos hds] at h; cases h
      · rw [if_neg hds] at h
        simp only [Option.some.injEq, Prod.mk.injEq] at h
        obtain ⟨hg, _⟩ := h
        subst hg
        refine ⟨fun he => hds (by rw [he]; rfl), fun d hd => takeWhile_digits d hd⟩

theorem compareFloorsNumsAt_groups {cs : List Char} {g1 g2 : List Char}
    (h : compareFloorsNumsAt cs = some (g1, g2)) :
    (g1 ≠ [] ∧ ∀ c ∈ g1, isSignDigit c = true) ∧
    (g2 ≠ [] ∧ ∀ c ∈ g2, isSignDigit c = true) := by
  unfold compareFloorsNumsAt at h
  simp only [Option.bind_eq_some, Option.map_eq_some'] at h
  obtain ⟨r1, _, r2, _, r3, _, r4, _, g1r, hg1, r6, _, r7, _, r8, _, g2r, hg2, hpair⟩ := h
  obtain ⟨hp1, hp2⟩ := Prod.mk.injEq .. ▸ hpair
  subst hp1
  subst hp2
  have h1 := @signNum_chars r4 g1r.1 g1r.2 (by simpa using hg1)
  have h2 := @signNum_chars r8 g2r.1 g2r.2 (by simpa using hg2)
  exact ⟨h1, h2⟩

theorem compareFloorsNumsSearch_groups {cs : List Char} {g1 g2 : List Char}
    (h : compareFloorsNumsSearch cs = some (g1, g2)) :
    (g1 ≠ [] ∧ ∀ c ∈ g1, isSignDigit c = true) ∧
    (g2 ≠ [] ∧ ∀ c ∈ g2, isSignDigit c = true) := by
  induction cs with
  | nil => simp [compareFloorsNumsSearch] at h
  | cons c t ih =>
    simp only [compareFloorsNumsSearch] at h
    split at h
    · next heq =>
      rename_i r
      obtain rfl : r = (g1, g2) := by simpa using h
      exact compareFloorsNumsAt_groups heq
    · exact ih h

theorem singleton_infix_iff {c : Char} {l : List Char} : [c] <:+: l ↔ c ∈ l := by
  constructor
  · rintro ⟨s, t, rfl⟩
    simp
  · intro hmem
    obtain ⟨s, t, rfl⟩ := List.append_of_mem hmem
    exact ⟨s, t, by simp⟩

theorem stripL_append_append {a m b : List Char}
    (ha : ¬ (a.dropWhile isWsC).isEmpty = true)
    (hb : ¬ (b.reverse.dropWhile isWsC).isEmpty = true) :
    stripL (a ++ (m ++ b)) =
      a.dropWhile isWsC ++ (m ++ (b.reverse.dropWhile isWsC).reverse) := by
  unfold stripL
  rw [List.dropWhile_append, if_neg ha]
  have h1 : (a.dropWhile isWsC ++ (m ++ b)).reverse =
      b.reverse ++ (m.reverse ++ (a.dropWhile isWsC).reverse) := by
    simp [List.reverse_append]
  rw [h1, List.dropWhile_append, if_neg hb]
  simp [List.reverse_append, List.append_assoc]

theorem padS_data (s : String) : (padS s).data = ' ' :: (s.data ++ [' ']) := by
  simp [padS, String.data_append]

set_option maxRecDepth 100000 in
/-- The per-keyword facts about the template segments, checked by computation:
    each banned keyword (and `limit`) is nonempty, contains no whitespace, no
    sign/digit characters, and does not occur in any fixed segment of the
    lowered stripped template. -/
theorem banned_tpl_facts : ∀ kw ∈ ("limit" :: BANNED_router),
    kw.data ≠ [] ∧ (∀ c ∈ kw.data, isWsC c = false) ∧
    (∀ c ∈ kw.data, isSignDigit c = false) ∧
    occursIn kw.data tplAcore = false ∧ occursIn kw.data lowTplB = false ∧
    occursIn kw.data lowTplC = false ∧ occursIn kw.data tplDcore = false := by
  decide

set_option maxRecDepth 100000 in
theorem tpl_start_with : ("with".data).isPrefixOf tplAcore = true := by decide

set_option maxRecDepth 100000 in
theorem tpl_no_semicolon :
    (';' ∈ tplAcore ∨ ';' ∈ lowTplB ∨ ';' ∈ lowTplC ∨ ';' ∈ tplDcore ∨
     ';' ∈ tplA.data ∨ ';' ∈ tplB.data ∨ ';' ∈ tplC.data ∨ ';' ∈ tplD.data) → False := by
  decide

set_option maxRecDepth 100000 in
theorem tplAcore_ne : (lowTplA.dropWhile isWsC).isEmpty = false := by decide

set_option maxRecDepth 100000 in
theorem tplDcore_ne : (lowTplD.reverse.dropWhile isWsC).isEmpty = false := by decide

theorem kw_infix_self (kw : List Char) : kw <:+: ' ' :: (kw ++ [' ']) :=
  ⟨[' '], [' '], by simp⟩

theorem space_all_ws : ∀ c ∈ ([' '] : List Char), isWsC c = true := by decide

/-- Unpadded transfer: if the padded keyword occurs in the padded text, the
    bare keyword occurs in the bare text. -/
theorem kw_of_padded {kw strip : List Char} (hk : ∀ c ∈ kw, isWsC c = false)
    (h : (' ' :: (kw ++ [' '])) <:+: (' ' :: (strip ++ [' ']))) : kw <:+: strip := by
  have h1 : kw <:+: (' ' :: (strip ++ [' '])) := (kw_infix_self kw).trans h
  have h2 : kw <:+: (strip ++ [' ']) :=
    infix_skip_left (p := isWsC) space_all_ws hk (by simpa using h1)
  exact infix_skip_right (p := isWsC) space_all_ws hk h2

set_option maxHeartbeats 2000000 in
set_option maxRecDepth 100000 in
theorem ensure_safe_template {parse : String → Bool} {f1 f2 : String} (d : Nat)
    (h1 : f1.data ≠ []) (h1c : ∀ c ∈ f1.data, isSignDigit c = true)
    (h2 : f2.data ≠ []) (h2c : ∀ c ∈ f2.data, isSignDigit c = true)
    (hp : parse (compare_template f1 f2 d) = true) :
    ∃ out, ensure_safe_select parse (compare_template f1 f2 d) = .ok out := by
  have hnrne : (natRepr d).data ≠ [] := natRepr_ne_nil d
  have hnrc : ∀ c ∈ (natRepr d).data, isSignDigit c = true := natRepr_signDigit d
  have hdata : (compare_template f1 f2 d).data =
      tplA.data ++ ((natRepr d).data ++ (tplB.data ++ (f1.data ++ (tplC.data ++
        (f2.data ++ tplD.data))))) := by
    simp only [compare_template, String.data_append, List.append_assoc]
  have hlow : lowerL (compare_template f1 f2 d).data =
      lowTplA ++ (((natRepr d).data ++ (lowTplB ++ (f1.data ++ (lowTplC ++ f2.data)))) ++
        lowTplD) := by
    rw [hdata]
    simp only [lowerL, List.map_append]
    rw [show List.map Char.toLower (natRepr d).data = (natRepr d).data from
          lowerL_id_of_signDigit hnrc,
        show List.map Char.toLower f1.data = f1.data from lowerL_id_of_signDigit h1c,
        show List.map Char.toLower f2.data = f2.data from lowerL_id_of_signDigit h2c]
    simp only [lowTplA, lowTplB, lowTplC, lowTplD, lowerL, List.append_assoc]
  have hstrip : stripL (lowerL (compare_template f1 f2 d).data) =
      tplAcore ++ (((natRepr d).data ++ (lowTplB ++ (f1.data ++ (lowTplC ++ f2.data)))) ++
        tplDcore) := by
    rw [hlow]
    rw [stripL_append_append (by rw [tplAcore_ne]; simp) (by rw [tplDcore_ne]; simp)]
    rfl
  have hrlow : (routerLow (compare_template f1 f2 d)).data =
      stripL (lowerL (compare_template f1 f2 d).data) := rfl
  have hsemi : hasSemicolon (compare_template f1 f2 d) = false := by
    rw [show hasSemicolon (compare_template f1 f2 d) =
      occursIn [';'] (compare_template f1 f2 d).data from rfl]
    rw [occursIn_eq_false_iff, singleton_infix_iff]
    rw [hdata]
    intro hm
    simp only [List.mem_append] at hm
    rcases hm with h | h | h | h | h | h | h
    · exact tpl_no_semicolon (by simp [h])
    · exact absurd rfl (signDigit_ne_semicolon (hnrc _ h))
    · exact tpl_no_semicolon (by simp [h])
    · exact absurd rfl (signDigit_ne_semicolon (h1c _ h))
    · exact tpl_no_semicolon (by simp [h])
    · exact absurd rfl (signDigit_ne_semicolon (h2c _ h))
    · exact tpl_no_semicolon (by simp [h])
  have hstart : startsSelectOrWith (routerLow (compare_template f1 f2 d)) = true := by
    have hpre : ("with".data) <+: (routerLow (compare_template f1 f2 d)).data := by
      rw [hrlow, hstrip]
      exact (isPrefixOf_iff.mp tpl_start_with).trans (List.prefix_append _ _)
    simp only [startsSelectOrWith, startsWithS, Bool.or_eq_true]
    exact Or.inr (isPrefixOf_iff.mpr hpre)
  have hban : bannedCheckR (compare_template f1 f2 d) = false := by
    rw [bannedCheckR, List.any_eq_false]
    intro kw hkw
    obtain ⟨hkne, hknw, hknsd, hA, hB, hC, hD⟩ :=
      banned_tpl_facts kw (List.mem_cons_of_mem _ hkw)
    intro hocc
    simp only [occursS] at hocc
    rw [occursIn_iff, padS_data, padS_data, hrlow, hstrip] at hocc
    have hbare := kw_of_padded hknw hocc
    have hassoc : tplAcore ++ (((natRepr d).data ++
          (lowTplB ++ (f1.data ++ (lowTplC ++ f2.data)))) ++ tplDcore)
        = tplAcore ++ (natRepr d).data ++
          (lowTplB ++ (f1.data ++ (lowTplC ++ (f2.data ++ tplDcore)))) := by
      simp [List.append_assoc]
    rw [hassoc] at hbare
    have hknsd' : ∀ c ∈ kw.data, isSignDigit c = false := hknsd
    rcases infix_split (p := isSignDigit) hnrne hnrc hknsd' hbare with hcase | hrest
    · exact absurd hcase (occursIn_eq_false_iff.mp hA)
    · have hassoc2 : lowTplB ++ (f1.data ++ (lowTplC ++ (f2.data ++ tplDcore)))
          = lowTplB ++ f1.data ++ (lowTplC ++ (f2.data ++ tplDcore)) := by
        simp [List.append_assoc]
      rw [hassoc2] at hrest
      rcases infix_split (p := isSignDigit) h1 h1c hknsd' hrest with hcase | hrest2
      · exact absurd hcase (occursIn_eq_false_iff.mp hB)
      · have hassoc3 : lowTplC ++ (f2.data ++ tplDcore)
            = lowTplC ++ f2.data ++ tplDcore := by
          simp [List.append_assoc]
        rw [hassoc3] at hrest2
        rcases infix_split (p := isSignDigit) h2 h2c hknsd' hrest2 with hcase | hcase
        · exact absurd hcase (occursIn_eq_false_iff.mp hC)
        · exact absurd hcase (occursIn_eq_false_iff.mp hD)
  by_cases hl : hasLimitTok (compare_template f1 f2 d) = true
  · refine ⟨compare_template f1 f2 d, ?_⟩
    unfold ensure_safe_select
    rw [hsemi, hstart, hban, hp, hl]
    simp
  · have hl' : hasLimitTok (compare_template f1 f2 d) = false := by
      revert hl
      cases hasLimitTok (compare_template f1 f2 d) <;> simp
    refine ⟨wrap_t (compare_template f1 f2 d), ?_⟩
    unfold ensure_safe_select
    rw [hsemi, hstart, hban, hp, hl']
    simp

/-! ## Idempotence of the router gate

Facts about the fixed text of the `wrap_t` wrapper, checked by computation. -/

set_option maxRecDepth 100000 in
theorem banned_wrap_facts : ∀ kw ∈ BANNED_router,
    kw.data ≠ [] ∧ (∀ c ∈ kw.data, isWsC c = false) ∧
    (∀ c ∈ (' ' :: (kw.data ++ [' '])), (decide (c = '(') : Bool) = false) ∧
    (∀ c ∈ (' ' :: (kw.data ++ [' '])), (decide (c = ')') : Bool) = false) ∧
    occursIn (' ' :: (kw.data ++ [' '])) (" select * from ").data = false ∧
    occursIn (' ' :: (kw.data ++ [' '])) (" as _t limit 500 ").data = false := by
  decide

theorem lower_wrapA : lowerL ("SELECT * FROM (").data = ("select * from (").data := by decide

theorem lower_wrapB : lowerL (") AS _t LIMIT 500").data = (") as _t limit 500").data := by decide

theorem wrapA_dropWhile :
    ("select * from (").data.dropWhile isWsC = ("select * from (").data := by decide

theorem wrapB_core :
    ((") as _t limit 500").data.reverse.dropWhile isWsC).reverse =
      (") as _t limit 500").data := by decide

theorem wrapA_ne : (("select * from (").data.dropWhile isWsC).isEmpty = false := by decide

theorem wrapB_ne : ((") as _t limit 500").data.reverse.dropWhile isWsC).isEmpty = false := by decide

theorem pad_reshape (mid : List Char) :
    ' ' :: ((("select * from (").data ++ (mid ++ (") as _t limit 500").data)) ++ [' ']) =
      (" select * from ").data ++ (['('] ++ (mid ++ ([')'] ++ (" as _t limit 500 ").data))) := by
  have e1 : (" select * from ").data ++ ['('] = ' ' :: ("select * from (").data := by decide
  have e2 : ([')'] : List Char) ++ (" as _t limit 500 ").data =
      (") as _t limit 500").data ++ [' '] := by decide
  rw [← List.append_assoc ((" select * from ").data) (['(']) _, e1, e2]
  simp [List.append_assoc]

set_option maxRecDepth 100000 in
set_option maxHeartbeats 2000000 in
/-- If the router gate accepts `sql` with output `out`, and the parse oracle
    also accepts `out` (as sqlglot does for the wrapped query), then gating
    `out` again succeeds and returns `out` unchanged. -/
theorem gate_idem {parse : String → Bool} {sql out : String}
    (hok : ensure_safe_select parse sql = .ok out) (hpo : parse out = true) :
    ensure_safe_select parse out = .ok out := by
  unfold ensure_safe_select at hok
  cases hsemi : hasSemicolon sql with
  | true => rw [hsemi] at hok; simp at hok
  | false =>
  rw [hsemi] at hok
  rw [if_neg (by simp)] at hok
  cases hstart : startsSelectOrWith (routerLow sql) with
  | false => rw [hstart] at hok; simp at hok
  | true =>
  rw [hstart] at hok
  rw [if_neg (by simp)] at hok
  cases hban : bannedCheckR sql with
  | true => rw [hban] at hok; simp at hok
  | false =>
  rw [hban] at hok
  rw [if_neg (by simp)] at hok
  cases hparse : parse sql with
  | false => rw [hparse] at hok; simp at hok
  | true =>
  rw [hparse] at hok
  rw [if_neg (by simp)] at hok
  cases hlim : hasLimitTok sql with
  | true =>
    rw [hlim] at hok
    rw [if_neg (by simp)] at hok
    obtain rfl : sql = out := by simpa using hok
    unfold ensure_safe_select
    rw [hsemi, hstart, hban, hparse, hlim]
    simp
  | false =>
    rw [hlim] at hok
    rw [if_pos (by simp)] at hok
    obtain rfl : wrap_t sql = out := by simpa using hok
    simp only [bannedCheckR, List.any_eq_false] at hban
    have hwdata : (wrap_t sql).data =
        ("SELECT * FROM (").data ++ (sql.data ++ (") AS _t LIMIT 500").data) := by
      simp [wrap_t, String.data_append, List.append_assoc]
    have hloww : lowerL (wrap_t sql).data =
        ("select * from (").data ++ (lowerL sql.data ++ (") as _t limit 500").data) := by
      rw [hwdata]
      simp only [lowerL, List.map_append]
      rw [show List.map Char.toLower ("SELECT * FROM (").data = ("select * from (").data from
            lower_wrapA,
          show List.map Char.toLower (") AS _t LIMIT 500").data = (") as _t limit 500").data from
            lower_wrapB]
    have hstripw : stripL (lowerL (wrap_t sql).data) =
        ("select * from (").data ++ (lowerL sql.data ++ (") as _t limit 500").data) := by
      rw [hloww, stripL_append_append (by rw [wrapA_ne]; simp) (by rw [wrapB_ne]; simp)]
      rw [wrapA_dropWhile, wrapB_core]
    have hrloww : (routerLow (wrap_t sql)).data = stripL (lowerL (wrap_t sql).data) := rfl
    have hsemi' : ';' ∉ sql.data := by
      intro hmem
      have h0 : occursIn ([';']) sql.data = false := hsemi
      exact (occursIn_eq_false_iff.mp h0) (singleton_infix_iff.mpr hmem)
    have hW1 : hasSemicolon (wrap_t sql) = false := by
      rw [show hasSemicolon (wrap_t sql) = occursIn ([';']) (wrap_t sql).data from rfl]
      rw [occursIn_eq_false_iff, singleton_infix_iff, hwdata]
      intro hm
      simp only [List.mem_append] at hm
      rcases hm with h | h | h
      · revert h; decide
      · exact hsemi' h
      · revert h; decide
    have hW2 : startsSelectOrWith (routerLow (wrap_t sql)) = true := by
      have hsp : ("select".data).isPrefixOf (("select * from (").data) = true := by decide
      have hpre : ("select".data) <+: (routerLow (wrap_t sql)).data := by
        rw [hrloww, hstripw]
        exact (isPrefixOf_iff.mp hsp).trans (List.prefix_append _ _)
      simp only [startsSelectOrWith, startsWithS, Bool.or_eq_true]
      exact Or.inl (isPrefixOf_iff.mpr hpre)
    have hW3 : bannedCheckR (wrap_t sql) = false := by
      rw [bannedCheckR, List.any_eq_false]
      intro kw hkw
      obtain ⟨hkne, hknw, hnp1, hnp2, hPA, hPB⟩ := banned_wrap_facts kw hkw
      intro hocc
      simp only [occursS] at hocc
      rw [occursIn_iff, padS_data, padS_data, hrloww, hstripw] at hocc
      rw [pad_reshape (lowerL sql.data)] at hocc
      have hs1 : (' ' :: (kw.data ++ [' '])) <:+:
          ((" select * from ").data ++ ['('] ++
            (lowerL sql.data ++ ([')'] ++ (" as _t limit 500 ").data))) := by
        rw [List.append_assoc]
        exact hocc
      rcases infix_split (p := fun c => decide (c = '(')) (by simp) (by decide) hnp1 hs1
        with hcase | hrest
      · exact absurd hcase (occursIn_eq_false_iff.mp hPA)
      · have hs2 : (' ' :: (kw.data ++ [' '])) <:+:
            ((lowerL sql.data ++ [')']) ++ (" as _t limit 500 ").data) := by
          rw [List.append_assoc]
          exact hrest
        rcases infix_split (p := fun c => decide (c = ')')) (by simp) (by decide) hnp2 hs2
          with hcase | hcase
        · obtain ⟨w1, w2, hdec, hw1, hw2⟩ := stripL_decomp (lowerL sql.data)
          rw [hdec] at hcase
          have hcase' : (' ' :: (kw.data ++ [' '])) <:+:
              (w1 ++ (stripL (lowerL sql.data) ++ w2)) := by
            rw [← List.append_assoc]
            exact hcase
          have h3 := needle_ws_left hkne hknw hw1 hcase'
          have h4 : (' ' :: (kw.data ++ [' '])) <:+:
              ((' ' :: stripL (lowerL sql.data)) ++ w2) := by
            simpa using h3
          have h5 := needle_ws_right hkne hknw hw2 h4
          have hbankw := hban kw hkw
          simp only [occursS] at hbankw
          rw [occursIn_iff, padS_data] at hbankw
          exact hbankw (by simpa using h5)
        · exact absurd hcase (occursIn_eq_false_iff.mp hPB)
    have hW5 : hasLimitTok (wrap_t sql) = true := by
      rw [show hasLimitTok (wrap_t sql) =
        occursIn ((" limit ").data) (padS (routerLow (wrap_t sql))).data from rfl]
      rw [occursIn_iff, padS_data, hrloww, hstripw]
      have hlimB : ((" limit ").data) <:+: ((") as _t limit 500").data) := by
        rw [← occursIn_iff]
        decide
      refine hlimB.trans ?_
      exact ⟨' ' :: (("select * from (").data ++ lowerL sql.data), [' '],
        by simp [List.append_assoc]⟩
    unfold ensure_safe_select
    rw [hW1, hW2, hW3, hpo, hW5]
    simp

/-! ## Alignment of the two gates (up to banned sets and alias) -/

theorem strip_dbLow (sql : String) : stripS (dbLow sql) = routerLow sql := by
  show String.mk (stripL (dbLow sql).data) = String.mk (stripL (lowerL sql.data))
  congr 1
  rw [show (dbLow sql).data = ' ' :: (stripL (lowerL sql.data) ++ [' ']) from padS_data _]
  exact stripL_pad_strip _

theorem gates_agree (parse : String → Bool) (sql : String)
    (h : bannedCheckR sql = bannedCheckD sql) :
    (∃ e1 e2, ensure_safe_select parse sql = .error e1 ∧
       ensure_safe_select_db parse sql = .error e2) ∨
    (ensure_safe_select parse sql = .ok sql ∧ ensure_safe_select_db parse sql = .ok sql) ∨
    (ensure_safe_select parse sql = .ok (wrap_t sql) ∧
       ensure_safe_select_db parse sql = .ok (wrap_safe sql)) := by
  have hlim : occursS " limit " (dbLow sql) = hasLimitTok sql := rfl
  unfold ensure_safe_select ensure_safe_select_db
  rw [strip_dbLow, ← h, hlim]
  cases h1 : hasSemicolon sql with
  | true =>
    exact Or.inl ⟨"Multiple statements not allowed.", "Multiple statements not allowed.",
      by simp, by simp⟩
  | false =>
  cases h2 : startsSelectOrWith (routerLow sql) with
  | false =>
    exact Or.inl ⟨"Only SELECT (or WITH ... SELECT) allowed.", "Only SELECT/WITH allowed.",
      by simp, by simp⟩
  | true =>
  cases h3 : bannedCheckR sql with
  | true =>
    exact Or.inl ⟨"Unsafe keyword detected.", "Unsafe keyword detected.", by simp, by simp⟩
  | false =>
  cases h4 : parse sql with
  | false =>
    exact Or.inl ⟨"SQL parse error", "SQL parse error", by simp, by simp⟩
  | true =>
  cases h5 : hasLimitTok sql with
  | false =>
    exact Or.inr (Or.inr ⟨by simp, by simp⟩)
  | true =>
    exact Or.inr (Or.inl ⟨by simp, by simp⟩)

theorem append_ne_empty {a b : String} (h : a ≠ "") : a ++ b ≠ "" := by
  intro hab
  apply h
  have hlen := congrArg String.length hab
  rw [String.length_append] at hlen
  have : a.length = 0 := by
    have : ("" : String).length = 0 := rfl
    omega
  cases a with
  | mk data =>
    cases data with
    | nil => rfl
    | cons c t => simp [String.length] at this

theorem occursS_append_right {n x y : String} (h : occursS n y = true) :
    occursS n (x ++ y) = true := by
  rw [occursS, occursIn_iff] at h ⊢
  rw [String.data_append]
  exact h.trans (List.suffix_append _ _).isInfix

theorem mkToolD_inv {n : String} {a : Args} {t : String} (ht : t ≠ "") :
    ToolInv (mkToolD n a t) := by
  simp [ToolInv, mkToolD, ht]

theorem fastFreeMeeting_inv {qn : String} {d : Decision}
    (h : fastFreeMeeting qn = some d) : ToolInv d := by
  unfold fastFreeMeeting at h
  split at h
  · split at h
    · next fl heq =>
      obtain rfl : _ = d := by simpa using h
      exact mkToolD_inv (append_ne_empty (by decide))
    · cases h
  · cases h

theorem fastUtilByFloor_inv {qn : String} {d : Decision}
    (h : fastUtilByFloor qn = some d) : ToolInv d := by
  unfold fastUtilByFloor at h
  split at h
  · obtain rfl : _ = d := by simpa using h
    exact mkToolD_inv (append_ne_empty (by decide))
  · cases h

theorem fastUtilFloor_inv {qn : String} {d : Decision}
    (h : fastUtilFloor qn = some d) : ToolInv d := by
  unfold fastUtilFloor at h
  split at h
  · split at h
    · next fl heq =>
      obtain rfl : _ = d := by simpa using h
      exact mkToolD_inv (append_ne_empty (append_ne_empty (append_ne_empty (by decide))))
    · cases h
  · cases h

theorem fastBusiest_inv {qn : String} {d : Decision}
    (h : fastBusiest qn = some d) : ToolInv d := by
  unfold fastBusiest at h
  split at h
  · obtain rfl : _ = d := by simpa using h
    exact mkToolD_inv (append_ne_empty (by decide))
  · cases h

theorem fastUnderused_inv {qn : String} {d : Decision}
    (h : fastUnderused qn = some d) : ToolInv d := by
  unfold fastUnderused at h
  split at h
  · obtain rfl : _ = d := by simpa using h
    exact mkToolD_inv (append_ne_empty (by decide))
  · cases h

theorem fastCoffee_inv {qn : String} {d : Decision}
    (h : fastCoffee qn = some d) : ToolInv d := by
  unfold fastCoffee at h
  split at h
  · obtain rfl : _ = d := by simpa using h
    exact mkToolD_inv (append_ne_empty (by decide))
  · cases h

theorem fast_intent_inv {q : String} {d : Decision} (h : fast_intent q = some d) :
    ToolInv d := by
  unfold fast_intent at h
  split at h
  · obtain rfl : _ = d := by simpa using h
    exact mkToolD_inv (by decide)
  · split at h
    · next fl heq =>
      obtain rfl : _ = d := by simpa using h
      exact mkToolD_inv (append_ne_empty (append_ne_empty (by decide)))
    · next heq =>
      rcases (Option.orElse_eq_some _ _ _).mp h with h1 | ⟨_, h1⟩
      · exact fastFreeMeeting_inv h1
      rcases (Option.orElse_eq_some _ _ _).mp h1 with h2 | ⟨_, h2⟩
      · exact fastUtilByFloor_inv h2
      rcases (Option.orElse_eq_some _ _ _).mp h2 with h3 | ⟨_, h3⟩
      · exact fastUtilFloor_inv h3
      rcases (Option.orElse_eq_some _ _ _).mp h3 with h4 | ⟨_, h4⟩
      · exact fastBusiest_inv h4
      rcases (Option.orElse_eq_some _ _ _).mp h4 with h5 | ⟨_, h5⟩
      · exact fastUnderused_inv h5
      · exact fastCoffee_inv h5

theorem fast_sql_inv {parse : String → Bool} {q : String} {d : Decision}
    (h : fast_sql parse q = .ok (some d)) :
    d.mode = "sql" ∧ d.sql.isSome = true ∧ d.name = none ∧ d.args = none ∧
    d.text = none ∧ d.trace ≠ "" := by
  simp only [fast_sql] at h
  split at h
  · cases h
  · split at h
    · cases h
    · obtain rfl : _ = d := by simpa using h
      refine ⟨rfl, rfl, rfl, rfl, rfl, ?_⟩
      exact append_ne_empty (append_ne_empty (append_ne_empty (append_ne_empty
        (append_ne_empty (a := "fast_sql: compare floors ") (by decide)))))

theorem infer_inv {cfg : RouterConfig} {parse : String → Bool} {llm : LLMOut}
    {j : String → Option Args} {ex : String → Option String} {q : String} {d : Decision}
    (h : infer cfg parse llm j ex q = .ok d) :
    d.trace ≠ "" ∧
    (d.mode = "tool" → d.args.isSome = true ∧ d.sql = none ∧ d.text = none ∧
      (d.name = none → d.trace = "llm: tool_choice")) ∧
    (d.mode = "sql" → d.sql.isSome = true ∧ d.name = none ∧ d.args = none ∧ d.text = none) ∧
    (d.mode = "text" → d.text.isSome = true ∧ d.name = none ∧ d.args = none ∧ d.sql = none) := by
  simp only [infer] at h
  split at h
  · next d' heq =>
    have hd : d' = d := by simpa using h
    have hfi : fast_intent (stripS q) = some d := by
      rw [← hd]
      by_cases hc : cfg.fast_intents = true
      · rwa [if_pos hc] at heq
      · rw [if_neg hc] at heq; cases heq
    obtain ⟨hm, hn, ha, hs, ht, htr⟩ := fast_intent_inv hfi
    refine ⟨htr, fun _ => ⟨ha, hs, ht, fun hnone => ?_⟩, fun hsql => ?_, fun htext => ?_⟩
    · rw [hnone] at hn; cases hn
    · rw [hm] at hsql; exact absurd hsql (by decide)
    · rw [hm] at htext; exact absurd htext (by decide)
  · next heq =>
    split at h
    · cases h
    · next d' heq2 =>
      have hd : d' = d := by simpa using h
      have hfs : fast_sql parse (stripS q) = .ok (some d) := by
        rw [← hd]
        by_cases hc : cfg.fast_sql = true
        · rwa [if_pos hc] at heq2
        · rw [if_neg hc] at heq2; simp at heq2
      obtain ⟨hm, hs, hn, ha, ht, htr⟩ := fast_sql_inv hfs
      refine ⟨htr, fun htool => ?_, fun _ => ⟨hs, hn, ha, ht⟩, fun htext => ?_⟩
      · rw [hm] at htool; exact absurd htool (by decide)
      · rw [hm] at htext; exact absurd htext (by decide)
    · next heq2 =>
      split at h
      · obtain rfl : _ = d := by simpa using h
        refine ⟨by simp [mkTextD, mkSqlD], fun htool => ?_, fun hsql => ?_, fun htext => ?_⟩
        · exact absurd htool (by simp [mkTextD, mkSqlD])
        · exact absurd hsql (by simp [mkTextD, mkSqlD])
        · exact absurd htext (by simp [mkTextD, mkSqlD])
      · split at h
        · obtain rfl : _ = d := by simpa using h
          refine ⟨by simp [mkTextD, mkSqlD], fun htool => ?_, fun hsql => ?_, fun _ => ?_⟩
          · exact absurd htool (by simp [mkTextD, mkSqlD])
          · exact absurd hsql (by simp [mkTextD, mkSqlD])
          · exact ⟨rfl, rfl, rfl, rfl⟩
        · split at h
          · next e =>
            obtain rfl : _ = d := by simpa using h
            refine ⟨by simp [mkTextD, mkSqlD], fun htool => ?_, fun hsql => ?_, fun _ => ?_⟩
            · exact absurd htool (by simp [mkTextD, mkSqlD])
            · exact absurd hsql (by simp [mkTextD, mkSqlD])
            · exact ⟨rfl, rfl, rfl, rfl⟩
          · next tcs content =>
            split at h
            · next tc rest =>
              obtain rfl : _ = d := by simpa using h
              refine ⟨by simp [mkTextD, mkSqlD], fun _ => ⟨rfl, rfl, rfl, fun _ => rfl⟩,
                fun hsql => ?_, fun htext => ?_⟩
              · exact absurd hsql (by simp [mkTextD, mkSqlD])
              · exact absurd htext (by simp [mkTextD, mkSqlD])
            · split at h
              · next raw heqx =>
                split at h
                · next s heqg =>
                  obtain rfl : _ = d := by simpa using h
                  refine ⟨by simp [mkTextD, mkSqlD], fun htool => ?_, fun _ => ⟨rfl, rfl, rfl, rfl⟩,
                    fun htext => ?_⟩
                  · exact absurd htool (by simp [mkTextD, mkSqlD])
                  · exact absurd htext (by simp [mkTextD, mkSqlD])
                · next e heqg =>
                  obtain rfl : _ = d := by simpa using h
                  refine ⟨by simp [mkTextD, mkSqlD], fun htool => ?_, fun hsql => ?_, fun _ => ?_⟩
                  · exact absurd htool (by simp [mkTextD, mkSqlD])
                  · exact absurd hsql (by simp [mkTextD, mkSqlD])
                  · exact ⟨rfl, rfl, rfl, rfl⟩
              · next heqx =>
                split at h
                · obtain rfl : _ = d := by simpa using h
                  refine ⟨by simp [mkTextD, mkSqlD], fun htool => ?_, fun hsql => ?_, fun _ => ?_⟩
                  · exact absurd htool (by simp [mkTextD, mkSqlD])
                  · exact absurd hsql (by simp [mkTextD, mkSqlD])
                  · exact ⟨rfl, rfl, rfl, rfl⟩
                · obtain rfl : _ = d := by simpa using h
                  refine ⟨by simp [mkTextD, mkSqlD], fun htool => ?_, fun hsql => ?_, fun _ => ?_⟩
                  · exact absurd htool (by simp [mkTextD, mkSqlD])
                  · exact absurd hsql (by simp [mkTextD, mkSqlD])
                  · exact ⟨rfl, rfl, rfl, rfl⟩

/-! ## The claims

One theorem per claim (for corrected claims, a counterexample against the
stated form and a theorem for the amended form). -/

set_option maxRecDepth 100000 in
/-- C1, counterexample.  For the question "underused rooms on floor 4 below
15%" the matcher battery does NOT return the underused-rooms tool: the
rooms-on-floor matcher, earlier in the priority order, fires first, and the
decision it returns carries no threshold argument at all. -/
theorem c1_counterexample :
    ∃ d, fast_intent "underused rooms on floor 4 below 15%" = some d ∧
      d.name = some "rooms_on_floor" ∧ d.name ≠ some "underused_rooms" ∧
      d.args = some { floor := some "4" } :=
  ⟨_, rfl, rfl, by decide, rfl⟩

set_option maxRecDepth 100000 in
/-- C1, amended.  On "underused rooms on floor 4 below 15%" the first matcher
whose predicate fires is rooms-on-floor, which wins with `floor="4"`; the
underused-rooms matcher alone would indeed have produced threshold `0.15`
(= 3/20) and `floor="4"`, but it is never reached. -/
theorem c1_theorem :
    fast_intent "underused rooms on floor 4 below 15%" =
      some (mkToolD "rooms_on_floor" { floor := some "4" }
        "fast_intent: rooms_on_floor floor=4 → tool") ∧
    fastUnderused (normalize_text "underused rooms on floor 4 below 15%") =
      some (mkToolD "underused_rooms"
        { floor := some "4", days := some 30, threshold := some (mkRat 3 20) }
        ("fast_intent: underused_rooms " ++
          underusedArgsRepr 30 (mkRat 3 20) (some "4"))) :=
  ⟨rfl, by decide⟩

set_option maxRecDepth 100000 in
/-- C2, counterexample.  In `select "drop" from t1` the banned keyword `drop`
occurs as a standalone whole word under regex word boundaries (its neighbours
are double quotes), yet the gate does not reject: its keyword check only
matches space-delimited occurrences, so the query is accepted (and wrapped). -/
theorem c2_counterexample :
    specWholeWord "drop" (routerLow "select \"drop\" from t1") = true ∧
    bannedCheckR "select \"drop\" from t1" = false ∧
    ensure_safe_select (fun _ => true) "select \"drop\" from t1" =
      .ok (wrap_t "select \"drop\" from t1") :=
  ⟨by decide, by decide, rfl⟩

/-- C2, amended.  The keyword check of the router gate rejects exactly the
space-delimited occurrences of a banned keyword in the padded, lowered,
stripped text (`bannedCheckR`): whenever that check fires the gate errors,
any accepted query is free of such occurrences, and `dropbox` never trips
the check (the spec example that does hold). -/
theorem c2_theorem (parse : String → Bool) (sql : String) :
    (bannedCheckR sql = true → ∃ e, ensure_safe_select parse sql = .error e) ∧
    (∀ out, ensure_safe_select parse sql = .ok out → bannedCheckR sql = false) ∧
    bannedCheckR "select dropbox from t1" = false ∧
    ensure_safe_select (fun _ => true) "select dropbox from t1" =
      .ok (wrap_t "select dropbox from t1") := by
  have part1 : bannedCheckR sql = true → ∃ e, ensure_safe_select parse sql = .error e := by
    intro hb
    cases h1 : hasSemicolon sql with
    | true =>
      exact ⟨"Multiple statements not allowed.", by simp [ensure_safe_select, h1]⟩
    | false =>
      cases h2 : startsSelectOrWith (routerLow sql) with
      | false =>
        exact ⟨"Only SELECT (or WITH ... SELECT) allowed.",
          by simp [ensure_safe_select, h1, h2]⟩
      | true =>
        exact ⟨"Unsafe keyword detected.", by simp [ensure_safe_select, h1, h2, hb]⟩
  refine ⟨part1, ?_, by decide, rfl⟩
  intro out hok
  by_contra hb
  rw [Bool.not_eq_false] at hb
  obtain ⟨e, he⟩ := part1 hb
  rw [hok] at he
  cases he

set_option maxRecDepth 100000 in
/-- C2, witness. -/
theorem c2_witness :
    (∃ e, ensure_safe_select (fun _ => true) "select drop from t1" = .error e) ∧
    bannedCheckR "select dropbox from t1" = false :=
  ⟨(c2_theorem (fun _ => true) "select drop from t1").1 (by decide),
   (c2_theorem (fun _ => true) "select drop from t1").2.2.1⟩

set_option maxRecDepth 100000 in
/-- C3, counterexample.  The chatbot tool dispatcher runs the coffee-machine
tool with no retry at all: on a backend whose planner returns an empty table
it hands back the empty result as-is, with no auto-repair annotation. -/
theorem c3_counterexample :
    ∃ r, chatbot_run_tool emptyBackend "plan_coffee_machines" {} = .ok r ∧
      r.df = some [] ∧ occursS "auto-repaired" r.text = false :=
  ⟨_, rfl, rfl, by decide⟩

/-- C3, amended.  In the agent dispatcher (the only dispatcher with a retry),
a coffee-machine invocation whose first execution returns an empty table is
retried exactly once with the relaxed arguments — hours dropped, days widened
to at least 14, quiet-area avoidance disabled — and the final text carries the
auto-repair annotation; a tool of any other name is never invoked twice. -/
theorem c3_theorem (b : Backend) (a : Args) :
    (∀ res0, agent_run_tool b "plan_coffee_machines" a = .ok res0 → res0.df = some [] →
       ∃ res, agent_tool_step b "plan_coffee_machines" a =
         .ok (res, [("plan_coffee_machines", a), ("plan_coffee_machines", relax_args a)]) ∧
         occursS "auto-repaired" res.text = true) ∧
    ((relax_args a).hours = none ∧ (relax_args a).avoid_quiet = some false ∧
      (relax_args a).days = some (max (a.days.getD 14) 14) ∧
      14 ≤ ((relax_args a).days).getD 0) ∧
    (∀ name res calls, name ≠ "plan_coffee_machines" →
       agent_tool_step b name a = .ok (res, calls) → calls = [(name, a)]) := by
  refine ⟨?_, ⟨rfl, rfl, rfl, le_max_right _ _⟩, ?_⟩
  · intro res0 h0 hdf
    obtain ⟨res2, hres2⟩ :
        ∃ r, agent_run_tool b "plan_coffee_machines" (relax_args a) = .ok r := ⟨_, rfl⟩
    refine ⟨{ res2 with
        text := res2.text ++ " (auto-repaired: widened window, relaxed quiet)" }, ?_, ?_⟩
    · simp [agent_tool_step, h0, hdf, hres2]
    · exact occursS_append_right (by decide)
  · intro name res calls hname hstep
    cases hrun : agent_run_tool b name a with
    | error e => simp [agent_tool_step, hrun] at hstep
    | ok res1 =>
      simp only [agent_tool_step, hrun] at hstep
      rw [if_neg (by simp [hname])] at hstep
      simp only [Except.ok.injEq, Prod.mk.injEq] at hstep
      exact hstep.2.symm

/-- C3, witness. -/
theorem c3_witness :
    ∃ res, agent_tool_step emptyBackend "plan_coffee_machines" {} =
      .ok (res, [("plan_coffee_machines", {}), ("plan_coffee_machines", relax_args {})]) ∧
      occursS "auto-repaired" res.text = true :=
  (c3_theorem emptyBackend {}).1 _ rfl rfl

set_option maxRecDepth 100000 in
/-- C4, confirmed.  On "why is floor 2 always empty" both deterministic stages
decline ("all" is not a substring of "always", so list-floors does not fire),
the escalation heuristic fires on the causal keyword "why", and infer returns
a mode=agent decision — for every parse oracle and every model output. -/
theorem c4_theorem :
    fast_intent (stripS "why is floor 2 always empty") = none ∧
    needs_agent (stripS "why is floor 2 always empty") = true ∧
    ∀ (parse : String → Bool) (llm : LLMOut) (j : String → Option Args)
      (ex : String → Option String),
      infer {} parse llm j ex "why is floor 2 always empty" =
        .ok { mode := "agent", trace := "heuristic: needs_agent" } :=
  ⟨rfl, rfl, fun _ _ _ _ => rfl⟩

/-- C5, counterexample.  The chatbot tool dispatcher does not fail on an
unknown tool name: it returns an ordinary ChatResponse whose text is
"Unknown tool: ..." (no exception, no error channel). -/
theorem c5_counterexample :
    chatbot_run_tool emptyBackend "telekinesis" {} =
      .ok { text := "Unknown tool: telekinesis" } :=
  rfl

/-- C5, amended.  Only the agent dispatcher fails with a lookup error on a
name outside its fixed tool set; the chatbot dispatcher instead returns an
ordinary ChatResponse reading "Unknown tool: ..." for a name outside its own
set. -/
theorem c5_theorem (b : Backend) (name : String) (a : Args) :
    (name ∉ agentToolNames →
      agent_run_tool b name a = .error ("Unknown tool " ++ name)) ∧
    (name ∉ chatbotToolNames →
      chatbot_run_tool b name a = .ok { text := "Unknown tool: " ++ name }) := by
  constructor
  · intro h
    simp only [agentToolNames, List.mem_cons, List.not_mem_nil, or_false, not_or] at h
    obtain ⟨h1, h2, h3, h4, h5, h6, h7, h8, h9⟩ := h
    simp only [agent_run_tool, if_neg h1, if_neg h2, if_neg h3, if_neg h4, if_neg h5,
      if_neg h6, if_neg h7, if_neg h8, if_neg h9]
  · intro h
    simp only [chatbotToolNames, agentToolNames, List.mem_append, List.mem_cons,
      List.not_mem_nil, or_false, not_or] at h
    obtain ⟨⟨h1, h2, h3, h4, h5, h6, h7, h8, h9⟩, h10, h11⟩ := h
    simp only [chatbot_run_tool, if_neg h1, if_neg h2, if_neg h3, if_neg h4, if_neg h5,
      if_neg h6, if_neg h7, if_neg h8, if_neg h9, if_neg h10, if_neg h11]

/-- C5, witness. -/
theorem c5_witness :
    agent_run_tool emptyBackend "telepathy" {} = .error ("Unknown tool " ++ "telepathy") ∧
    chatbot_run_tool emptyBackend "telepathy" {} =
      .ok { text := "Unknown tool: " ++ "telepathy" } :=
  ⟨(c5_theorem emptyBackend "telepathy" {}).1 (by decide),
   (c5_theorem emptyBackend "telepathy" {}).2 (by decide)⟩

/-- C6, counterexample.  A model response whose first tool call has no name
attribute yields a mode=tool decision whose name field is NOT populated:
`name = none` while `mode = "tool"`. -/
theorem c6_counterexample :
    ∃ d, infer {} (fun _ => true)
        (.msg [{ fnName := none, fnArgs := none }] "")
        (fun _ => none) (fun _ => none) "hello" = .ok d ∧
      d.mode = "tool" ∧ d.name = none ∧ d.args.isSome = true :=
  ⟨_, rfl, rfl, rfl, rfl⟩

/-- C6, amended.  Every decision returned by infer has a nonempty trace and
satisfies the mode-populates-fields invariant except for the tool-name field:
mode=tool guarantees args populated and sql, text empty (the name can be
`none` when the model emitted a nameless tool call); mode=sql and mode=text
populate exactly their own payload field. -/
theorem c6_theorem (cfg : RouterConfig) (parse : String → Bool) (llm : LLMOut)
    (j : String → Option Args) (ex : String → Option String) (q : String) (d : Decision)
    (h : infer cfg parse llm j ex q = .ok d) :
    d.trace ≠ "" ∧
    (d.mode = "tool" → d.args.isSome = true ∧ d.sql = none ∧ d.text = none) ∧
    (d.mode = "sql" → d.sql.isSome = true ∧ d.name = none ∧ d.args = none ∧ d.text = none) ∧
    (d.mode = "text" → d.text.isSome = true ∧ d.name = none ∧ d.args = none ∧ d.sql = none) := by
  obtain ⟨h1, h2, h3, h4⟩ := infer_inv h
  exact ⟨h1, fun hm => ⟨(h2 hm).1, (h2 hm).2.1, (h2 hm).2.2.1⟩, h3, h4⟩

/-- C6, witness. -/
theorem c6_witness :
    (mkTextD "hi" "llm: plain text").trace ≠ "" ∧
    ((mkTextD "hi" "llm: plain text").mode = "text" →
      (mkTextD "hi" "llm: plain text").text.isSome = true ∧
      (mkTextD "hi" "llm: plain text").name = none ∧
      (mkTextD "hi" "llm: plain text").args = none ∧
      (mkTextD "hi" "llm: plain text").sql = none) :=
  ⟨(c6_theorem { strict_mode := false } (fun _ => true) (.msg [] "hi")
      (fun _ => none) (fun _ => none) "hello" (mkTextD "hi" "llm: plain text") rfl).1,
   (c6_theorem { strict_mode := false } (fun _ => true) (.msg [] "hi")
      (fun _ => none) (fun _ => none) "hello" (mkTextD "hi" "llm: plain text") rfl).2.2.2⟩

set_option maxRecDepth 100000 in
/-- C7, counterexample.  "select 1\nlimit 2" contains a row-limiting clause,
but the gate detects LIMIT only as the space-delimited token " limit ", so the
newline-delimited clause is missed and the statement is wrapped anyway (it is
not returned unchanged); the space-delimited "select 1 limit 2" is returned
unchanged. -/
theorem c7_counterexample :
    ensure_safe_select (fun _ => true) "select 1\nlimit 2" =
      .ok (wrap_t "select 1\nlimit 2") ∧
    wrap_t "select 1\nlimit 2" ≠ "select 1\nlimit 2" ∧
    ensure_safe_select (fun _ => true) "select 1 limit 2" = .ok "select 1 limit 2" :=
  ⟨rfl, by decide, rfl⟩

/-- C7, amended.  For every accepted SQL string the gate returns the input
unchanged exactly when the space-delimited token " limit " occurs in the
padded lowered text, and otherwise returns the whole statement wrapped as a
subquery with an outer LIMIT 500 — wrapping is decided by that textual token,
not by the presence of a row-limiting clause. -/
theorem c7_theorem (parse : String → Bool) (sql out : String)
    (h : ensure_safe_select parse sql = .ok out) :
    (hasLimitTok sql = true ∧ out = sql) ∨
    (hasLimitTok sql = false ∧ out = wrap_t sql) := by
  simp only [ensure_safe_select] at h
  split at h
  · cases h
  · split at h
    · cases h
    · split at h
      · cases h
      · split at h
        · cases h
        · split at h
          · next hlim =>
            injection h with h2
            exact Or.inr ⟨by simpa using hlim, h2.symm⟩
          · next hlim =>
            injection h with h2
            exact Or.inl ⟨by simpa using hlim, h2.symm⟩

/-- C7, witness. -/
theorem c7_witness :
    (hasLimitTok "select 1" = true ∧ wrap_t "select 1" = "select 1") ∨
    (hasLimitTok "select 1" = false ∧ wrap_t "select 1" = wrap_t "select 1") :=
  c7_theorem (fun _ => true) "select 1" (wrap_t "select 1") rfl

/-- C8, confirmed.  The gate is idempotent: whenever it accepts sql with
output out, and the parse oracle accepts out (sqlglot parses the wrapped
SELECT), a second pass accepts out and returns it unchanged — no second
wrapping and no rejection. -/
theorem c8_theorem (parse : String → Bool) (sql out : String)
    (hok : ensure_safe_select parse sql = .ok out) (hpo : parse out = true) :
    ensure_safe_select parse out = .ok out :=
  gate_idem hok hpo

/-- C8, witness. -/
theorem c8_witness :
    ensure_safe_select (fun _ => true) (wrap_t "select 1") = .ok (wrap_t "select 1") :=
  c8_theorem (fun _ => true) "select 1" (wrap_t "select 1") rfl rfl

/-- C9, confirmed.  On every input string the pattern matcher returns a
decision or no match (it is a total function), and the templated SQL stage
returns without raising — the only exception it could propagate is the
safety gate rejecting the fixed comparison template, which cannot happen
when the parse oracle accepts the template (as sqlglot does). -/
theorem c9_theorem (parse : String → Bool) (q : String)
    (hparse : ∀ f1 f2 d, parse (compare_template f1 f2 d) = true) :
    ((fast_intent q).isSome = true ∨ fast_intent q = none) ∧
    ∃ r, fast_sql parse q = .ok r := by
  constructor
  · cases fast_intent q with
    | none => exact Or.inr rfl
    | some d => exact Or.inl rfl
  · cases hs : compareFloorsNumsSearch (pyLower q).data with
    | none => exact ⟨none, by simp only [fast_sql, hs]⟩
    | some p =>
      obtain ⟨g1, g2⟩ := p
      obtain ⟨⟨hg1ne, hg1c⟩, hg2ne, hg2c⟩ := compareFloorsNumsSearch_groups hs
      obtain ⟨out, hout⟩ := @ensure_safe_template parse (String.mk g1) (String.mk g2)
        (orDefaultNat (parse_days_hours (pyLower q)).1 7) hg1ne hg1c hg2ne hg2c
        (hparse _ _ _)
      exact ⟨some (mkSqlD out
          ("fast_sql: compare floors " ++ String.mk g1 ++ " vs " ++ String.mk g2 ++
            " days=" ++ natRepr (orDefaultNat (parse_days_hours (pyLower q)).1 7))),
        by simp only [fast_sql, hs, hout]⟩

set_option maxRecDepth 100000 in
set_option maxHeartbeats 2000000 in
/-- C9, witness. -/
theorem c9_witness :
    (((fast_intent "compare floors 2 and 3").isSome = true ∨
        fast_intent "compare floors 2 and 3" = none)) ∧
    ∃ r, fast_sql (fun _ => true) "compare floors 2 and 3" = .ok r :=
  c9_theorem (fun _ => true) "compare floors 2 and 3" (fun _ _ _ => rfl)

set_option maxRecDepth 100000 in
/-- C10, counterexample.  The two gates are not equivalent: the router bans
the bare keyword "create" (rejecting "select 1 -- create foo", which the db
gate accepts), while the db gate bans " call " and " create table " and
" replace into " (rejecting "select 1 -- call me", which the router gate
accepts). -/
theorem c10_counterexample :
    (ensure_safe_select (fun _ => true) "select 1 -- create foo" =
        .error "Unsafe keyword detected." ∧
      ensure_safe_select_db (fun _ => true) "select 1 -- create foo" =
        .ok (wrap_safe "select 1 -- create foo")) ∧
    (ensure_safe_select (fun _ => true) "select 1 -- call me" =
        .ok (wrap_t "select 1 -- call me") ∧
      ensure_safe_select_db (fun _ => true) "select 1 -- call me" =
        .error "Unsafe keyword detected.") :=
  ⟨⟨rfl, rfl⟩, ⟨rfl, rfl⟩⟩

/-- C10, amended.  On every input where the two keyword checks agree (they
differ only on the keywords create/create table/call/replace into), the two
gates agree: both reject, or both return the input unchanged, or both wrap it
— the same query up to the wrapper alias (_t vs _safe). -/
theorem c10_theorem (parse : String → Bool) (sql : String)
    (h : bannedCheckR sql = bannedCheckD sql) :
    (∃ e1 e2, ensure_safe_select parse sql = .error e1 ∧
       ensure_safe_select_db parse sql = .error e2) ∨
    (ensure_safe_select parse sql = .ok sql ∧
       ensure_safe_select_db parse sql = .ok sql) ∨
    (ensure_safe_select parse sql = .ok (wrap_t sql) ∧
       ensure_safe_select_db parse sql = .ok (wrap_safe sql)) :=
  gates_agree parse sql h

/-- C10, witness. -/
theorem c10_witness :
    (∃ e1 e2, ensure_safe_select (fun _ => true) "select 1" = .error e1 ∧
       ensure_safe_select_db (fun _ => true) "select 1" = .error e2) ∨
    (ensure_safe_select (fun _ => true) "select 1" = .ok "select 1" ∧
       ensure_safe_select_db (fun _ => true) "select 1" = .ok "select 1") ∨
    (ensure_safe_select (fun _ => true) "select 1" = .ok (wrap_t "select 1") ∧
       ensure_safe_select_db (fun _ => true) "select 1" = .ok (wrap_safe "select 1")) :=
  c10_theorem (fun _ => true) "select 1" rfl
